import Mathlib

/-!
Verification of the DigiForm enhanced CAD engine
(`backend/enhanced_cad_engine.py`).

The engine turns a parsed component specification (family tag + sparse
dimension record + material) into a triangulated mesh and derived
engineering properties.  This file gives a shallow embedding of the
mesh generators, the registry dispatch, the property calculator and the
bounding-box calculator, and proves/refutes the specified properties.

Modelling conventions:
* Python floats are modelled as rationals (`ℚ`); the transcendental
  functions `math.pi`, `math.cos`, `math.sin`, `math.sqrt` are abstracted
  into a `MathOps` record so every definition stays executable, and
  theorems quantify over the record where the claim allows it.
* Python `float` division raises `ZeroDivisionError` on a zero
  denominator, so every division whose denominator is not a nonzero
  literal goes through `pdiv`, and fallible code returns
  `Except String _`.
* `round(x, 2)` is modelled as round-half-to-even at two decimals on
  exact rationals.
* Python dicts with known key sets become structures with `Option`
  fields (the sparse `dimensions` record) or association lists (the
  `parameters` record of a mesh).
-/

/-- Python-style iteration that can raise: maps a fallible body over a
list, propagating the first error (models a `for` loop whose body may
raise an exception while appending results). -/
def exMapM {α β : Type} (f : α → Except String β) : List α → Except String (List β)
  | [] => .ok []
  | a :: as =>
    match f a with
    | .error e => .error e
    | .ok b =>
      match exMapM f as with
      | .error e => .error e
      | .ok bs => .ok (b :: bs)

/-- Python float division: raises `ZeroDivisionError` on a zero
denominator. -/
def pdiv (a b : ℚ) : Except String ℚ :=
  if b = 0 then .error "ZeroDivisionError: float division by zero" else .ok (a / b)

/-- Python sequence repetition `lst * n` (concatenate `n` copies). -/
def listRepeat (l : List ℚ) (n : ℕ) : List ℚ := (List.replicate n l).flatten

/-- Python slice `lst[0::3]`: every third element starting at index 0. -/
def stride3 : List ℚ → List ℚ
  | [] => []
  | [a] => [a]
  | [a, _] => [a]
  | a :: _ :: _ :: rest => a :: stride3 rest

/-- Python `range(start, stop, step)` for a positive step. -/
def rangeStep (start stop step : ℕ) : List ℕ :=
  (List.range ((stop - start + step - 1) / step)).map (fun k => start + k * step)

/-- Python `max(lst)`: raises `ValueError` on an empty sequence. -/
def pyMax : List ℚ → Except String ℚ
  | [] => .error "ValueError: max arg is an empty sequence"
  | h :: t => .ok (t.foldl max h)

/-- Python `min(lst)`: raises `ValueError` on an empty sequence. -/
def pyMin : List ℚ → Except String ℚ
  | [] => .error "ValueError: min arg is an empty sequence"
  | h :: t => .ok (t.foldl min h)

/-- Total mirror of `pyMax` used in theorem statements (agrees with
`pyMax` on nonempty lists). -/
def listMax : List ℚ → ℚ
  | [] => 0
  | h :: t => t.foldl max h

/-- Total mirror of `pyMin` used in theorem statements (agrees with
`pyMin` on nonempty lists). -/
def listMin : List ℚ → ℚ
  | [] => 0
  | h :: t => t.foldl min h

/-- Round a rational to the nearest integer, ties to even (the rounding
mode of Python `round`). -/
def roundHalfEven (q : ℚ) : ℤ :=
  let f := ⌊q⌋
  let r := q - f
  if r < 1/2 then f
  else if 1/2 < r then f + 1
  else if Even f then f else f + 1

/-- Python `round(x, 2)` on exact rationals. -/
def round2 (q : ℚ) : ℚ := (roundHalfEven (q * 100) : ℚ) / 100

/-- The transcendental functions the engine uses (`math.pi`,
`math.cos`, `math.sin`, `math.sqrt`), abstracted so that the embedding
stays executable over `ℚ`. -/
structure MathOps where
  pi : ℚ
  cos : ℚ → ℚ
  sin : ℚ → ℚ
  sqrt : ℚ → ℚ

/-- Python `math.radians(x) = x * pi / 180`. -/
def mathRadians (ops : MathOps) (x : ℚ) : ℚ := x * ops.pi / 180

/-- The sparse `dimensions` dict: every key the generators read, each
optional (absent key = `none`). -/
structure Dimensions where
  values : Option (List ℚ) := none
  teeth : Option ℤ := none
  diameter : Option ℚ := none
  size : Option ℚ := none
  radius : Option ℚ := none
  height : Option ℚ := none
  length : Option ℚ := none
  baseWidth : Option ℚ := none
  baseHeight : Option ℚ := none
  baseDepth : Option ℚ := none
  baseRadius : Option ℚ := none
  topRadius : Option ℚ := none
  deriving DecidableEq, Repr

/-- The parsed-description record handed to `_generate_enhanced_geometry`
and `_calculate_properties` (keys `type`, `dimensions`, `material`,
`description`). -/
structure Parsed where
  type : String
  dimensions : Dimensions
  material : String
  description : String := ""
  deriving DecidableEq, Repr

/-- The mesh dict every generator returns: flat vertex/normal streams,
an index list, and the `parameters` record (numeric entries as an
association list; the purely diagnostic string entry under key `note`
is kept in its own field since no consumer reads it as a number). -/
structure Mesh where
  type : String
  vertices : List ℚ
  normals : List ℚ
  indices : List ℤ
  parameters : List (String × ℚ)
  note : Option String := none
  deriving DecidableEq, Repr

/-- The bounding-box record `{length, width, height}`. -/
structure BBox where
  length : ℚ
  width : ℚ
  height : ℚ
  deriving DecidableEq, Repr

/-- The engineering-properties record returned by
`_calculate_properties`. -/
structure EngProps where
  volume : ℚ
  mass : ℚ
  material : String
  density : ℚ
  yieldStrength : ℚ
  boundingBox : BBox
  deriving DecidableEq, Repr

/-- Resolved gear tooth count: `dimensions.get('teeth', 20)`. -/
def gearTeeth (dims : Dimensions) : ℤ := dims.teeth.getD 20

/-- The involute point helper of `_generate_gear`:
`x = r (cos a + a sin a)`, `y = r (sin a - a cos a)`. -/
def involutePoint (ops : MathOps) (baseRadius angle : ℚ) : ℚ × ℚ :=
  (baseRadius * (ops.cos angle + angle * ops.sin angle),
   baseRadius * (ops.sin angle - angle * ops.cos angle))

/-- `_generate_cube` (lines 449-494): eight corner vertices of an
axis-aligned cube, twelve fixed triangles, uniform `(0,0,1)` normals. -/
def cubeGen (_ops : MathOps) (dims : Dimensions) : Except String Mesh :=
  let size := dims.size.getD (match dims.values with | some (v :: _) => v | _ => 50)
  let half := size / 2
  let vertices : List ℚ :=
    [-half, -half, half,  half, -half, half,  half, half, half,  -half, half, half,
     -half, -half, -half,  half, -half, -half,  half, half, -half,  -half, half, -half]
  let normals := listRepeat [0, 0, 1] (vertices.length / 3)
  let indices : List ℤ :=
    [0, 1, 2, 0, 2, 3,
     4, 6, 5, 4, 7, 6,
     1, 5, 6, 1, 6, 2,
     0, 3, 7, 0, 7, 4,
     3, 2, 6, 3, 6, 7,
     0, 4, 5, 0, 5, 1]
  .ok ⟨"cube", vertices, normals, indices, [("size", size)], none⟩

/-- `_generate_plate` (lines 356-396): rectangular plate box. -/
def plateGen (_ops : MathOps) (dims : Dimensions) : Except String Mesh :=
  let values := dims.values.getD [100, 100, 5]
  let width := (values.get? 0).getD 100
  let height := (values.get? 1).getD 100
  let thickness := (values.get? 2).getD 5
  let vertices : List ℚ :=
    [-width/2, -height/2, thickness/2,
     width/2, -height/2, thickness/2,
     width/2, height/2, thickness/2,
     -width/2, height/2, thickness/2,
     -width/2, -height/2, -thickness/2,
     width/2, -height/2, -thickness/2,
     width/2, height/2, -thickness/2,
     -width/2, height/2, -thickness/2]
  let normals := listRepeat [0, 0, 1] (vertices.length / 3)
  let indices : List ℤ :=
    [0, 1, 2, 0, 2, 3,
     4, 6, 5, 4, 7, 6,
     0, 4, 5, 0, 5, 1,
     1, 5, 6, 1, 6, 2,
     2, 6, 7, 2, 7, 3,
     3, 7, 4, 3, 4, 0]
  .ok ⟨"plate", vertices, normals, indices,
    [("width", width), ("height", height), ("thickness", thickness)], none⟩

/-- `_generate_bracket` (lines 299-354): box plus two mounting-hole
centreline vertices, uniform normals, twelve box triangles. -/
def bracketGen (_ops : MathOps) (dims : Dimensions) : Except String Mesh :=
  let values := dims.values.getD [100, 50, 10]
  let width := (values.get? 0).getD 100
  let height := (values.get? 1).getD 50
  let thickness := (values.get? 2).getD 10
  let vertices : List ℚ :=
    [-width/2, -height/2, thickness/2,
     width/2, -height/2, thickness/2,
     width/2, height/2, thickness/2,
     -width/2, height/2, thickness/2,
     -width/2, -height/2, -thickness/2,
     width/2, -height/2, -thickness/2,
     width/2, height/2, -thickness/2,
     -width/2, height/2, -thickness/2,
     -width/3, -height/3, thickness/2,
     -width/3, -height/3, -thickness/2]
  let normals := listRepeat [0, 0, 1] (vertices.length / 3)
  let indices : List ℤ :=
    [0, 1, 2, 0, 2, 3,
     4, 6, 5, 4, 7, 6,
     0, 4, 5, 0, 5, 1,
     1, 5, 6, 1, 6, 2,
     2, 6, 7, 2, 7, 3,
     3, 7, 4, 3, 4, 0]
  .ok ⟨"bracket", vertices, normals, indices,
    [("width", width), ("height", height), ("thickness", thickness), ("mounting_holes", 4)],
    some "Simplified bracket - real implementation would include proper fillets and hole geometry"⟩

/-- `_generate_prism` (lines 496-529): triangular prism, six vertices,
hand-enumerated triangles. -/
def prismGen (_ops : MathOps) (dims : Dimensions) : Except String Mesh :=
  let baseWidth := dims.baseWidth.getD (match dims.values with | some (v :: _) => v | _ => 30)
  let baseHeight := dims.baseHeight.getD (match dims.values with | some (_ :: b :: _) => b | _ => 30)
  let length := dims.length.getD (match dims.values with | some (_ :: _ :: c :: _) => c | _ => 50)
  let halfLength := length / 2
  let vertices : List ℚ :=
    [0, baseHeight/2, halfLength,
     -baseWidth/2, -baseHeight/2, halfLength,
     baseWidth/2, -baseHeight/2, halfLength,
     0, baseHeight/2, -halfLength,
     -baseWidth/2, -baseHeight/2, -halfLength,
     baseWidth/2, -baseHeight/2, -halfLength]
  let normals := listRepeat [0, 0, 1] (vertices.length / 3)
  let indices : List ℤ :=
    [0, 1, 2, 3, 5, 4, 0, 2, 5, 0, 5, 3, 1, 4, 5, 1, 5, 2, 0, 3, 4, 0, 4, 1]
  .ok ⟨"prism", vertices, normals, indices,
    [("base_width", baseWidth), ("base_height", baseHeight), ("length", length)], none⟩

/-- `_generate_pyramid` (lines 663-693): square-base pyramid, five
vertices, apex-fan plus base triangles. -/
def pyramidGen (_ops : MathOps) (dims : Dimensions) : Except String Mesh :=
  let baseWidth := dims.baseWidth.getD (match dims.values with | some (v :: _) => v | _ => 30)
  let baseDepth := dims.baseDepth.getD (match dims.values with | some (_ :: b :: _) => b | _ => 30)
  let height := dims.height.getD (match dims.values with | some (_ :: _ :: c :: _) => c | _ => 40)
  let halfWidth := baseWidth / 2
  let halfDepth := baseDepth / 2
  let vertices : List ℚ :=
    [0, 0, height/2,
     -halfWidth, -halfDepth, -height/2,
     halfWidth, -halfDepth, -height/2,
     halfWidth, halfDepth, -height/2,
     -halfWidth, halfDepth, -height/2]
  let normals := listRepeat [0, 0, 1] (vertices.length / 3)
  let indices : List ℤ :=
    [0, 1, 2, 0, 2, 3, 0, 3, 4, 0, 4, 1, 1, 3, 2, 1, 4, 3]
  .ok ⟨"pyramid", vertices, normals, indices,
    [("base_width", baseWidth), ("base_depth", baseDepth), ("height", height)], none⟩

/-- The cone base-ring vertex loop (lines 639-643): `segments+1` base
vertices. -/
def coneBaseRing (ops : MathOps) (baseRadius height : ℚ) (segments : ℕ) : List ℚ :=
  (List.range (segments + 1)).flatMap (fun i =>
    let angle := 2 * ops.pi * (i : ℚ) / (segments : ℚ)
    [baseRadius * ops.cos angle, baseRadius * ops.sin angle, -height/2])

/-- The cone base-ring normals (line 644): a downward normal per base
vertex. -/
def coneBaseNormals (segments : ℕ) : List ℚ :=
  (List.range (segments + 1)).flatMap (fun _ => [0, 0, -1])

/-- `_generate_cone` (lines 627-661): apex vertex plus a base ring of
`segments+1` vertices, fan-triangulated from the apex.  The resolved
`top_radius` is accepted but unused in the geometry. -/
def coneGen (ops : MathOps) (dims : Dimensions) : Except String Mesh :=
  let baseRadius := dims.baseRadius.getD (match dims.values with | some (v :: _) => v | _ => 25)
  let topRadius := dims.topRadius.getD 0
  let height := dims.height.getD (match dims.values with | some (_ :: b :: _) => b | _ => 50)
  let segments : ℕ := 32
  let vertices : List ℚ :=
    [0, 0, height/2] ++ coneBaseRing ops baseRadius height segments
  let normals : List ℚ :=
    [0, 0, 1] ++ coneBaseNormals segments
  let indices : List ℤ :=
    (List.range' 1 segments).flatMap (fun i =>
      [0, (i : ℤ), if i < segments then (i : ℤ) + 1 else 1])
  .ok ⟨"cone", vertices, normals, indices,
    [("base_radius", baseRadius), ("top_radius", topRadius),
     ("height", height), ("segments", 32)], none⟩

/-- The bolt hexagonal-head vertex loop (lines 414-421): six angular
positions, bottom and top of the head per position. -/
def boltHeadVertices (ops : MathOps) (headRadius headHeight : ℚ) : List ℚ :=
  (List.range 6).flatMap (fun i =>
    let angle := 2 * ops.pi * (i : ℚ) / 6
    let x := headRadius * ops.cos angle
    let y := headRadius * ops.sin angle
    [x, y, 0, x, y, headHeight])

/-- The bolt shaft vertex loop (lines 426-431): `segments+1` ring
positions, start and end of the shaft per position. -/
def boltShaftVertices (ops : MathOps) (radius headHeight length : ℚ) (segments : ℕ) :
    List ℚ :=
  (List.range (segments + 1)).flatMap (fun i =>
    let angle := 2 * ops.pi * (i : ℚ) / (segments : ℚ)
    let x := radius * ops.cos angle
    let y := radius * ops.sin angle
    [x, y, headHeight, x, y, headHeight + length])

/-- `_generate_bolt` (lines 398-447): hexagonal head (6 angular
positions, two z levels) concatenated with a shaft ring; placeholder
identity index list; uniform `(0,0,1)` normals.  (The Python code also
computes an unused `shaft_start`.) -/
def boltGen (ops : MathOps) (dims : Dimensions) : Except String Mesh :=
  let values := dims.values.getD [4, 30]
  let diameter := dims.diameter.getD (match values with | [] => 8 | v :: _ => v * 2)
  let length := (values.get? 1).getD 30
  let radius := diameter / 2
  let headRadius := radius * 1.5
  let headHeight := radius * 0.8
  let segments : ℕ := 16
  let vertices := boltHeadVertices ops headRadius headHeight ++
    boltShaftVertices ops radius headHeight length segments
  let normals := listRepeat [0, 0, 1] (vertices.length / 3)
  let indices : List ℤ := (List.range (vertices.length / 3)).map Int.ofNat
  .ok ⟨"bolt", vertices, normals, indices,
    [("radius", radius), ("length", length),
     ("head_radius", headRadius), ("head_height", headHeight)], none⟩

/-- Resolved shaft radius (lines 194-198): half of
`dimensions.get('diameter', values[0]*2 if values else 25)` with
`values = dimensions.get('values', [12.5, 100])`. -/
def shaftRadius (dims : Dimensions) : ℚ :=
  let values := dims.values.getD [12.5, 100]
  (dims.diameter.getD (match values with | [] => 25 | v :: _ => v * 2)) / 2

/-- Resolved shaft length (lines 194-196):
`values[1] if len(values) > 1 else 100`. -/
def shaftLength (dims : Dimensions) : ℚ :=
  ((dims.values.getD [12.5, 100]).get? 1).getD 100

/-- One iteration of the shaft vertex loop (lines 206-219): the bottom
and top vertex triples of segment `i` and their radial normals (the
normal components divide by the radius, raising on a zero radius). -/
def shaftRow (ops : MathOps) (radius length : ℚ) (segments : ℕ) (i : ℕ) :
    Except String (List ℚ × List ℚ) := do
  let angle := 2 * ops.pi * (i : ℚ) / (segments : ℚ)
  let x := radius * ops.cos angle
  let y := radius * ops.sin angle
  let nx ← pdiv x radius
  let ny ← pdiv y radius
  pure (([x, y, -length/2, x, y, length/2] : List ℚ),
        ([nx, ny, 0, nx, ny, 0] : List ℚ))

/-- `_generate_shaft` (lines 192-247): ring of `segments+1` bottom/top
vertex pairs with radial normals, two side triangles per segment plus
bottom/top cap fan triangles. -/
def shaftGen (ops : MathOps) (dims : Dimensions) : Except String Mesh := do
  let length := shaftLength dims
  let radius := shaftRadius dims
  let segments : ℕ := 32
  let rows ← exMapM (shaftRow ops radius length segments) (List.range (segments + 1))
  let vertices := (rows.map Prod.fst).flatten
  let normals := (rows.map Prod.snd).flatten
  let indices : List ℤ := (List.range segments).flatMap (fun i =>
    let bottom1 : ℤ := (i : ℤ) * 2
    let bottom2 : ℤ := (((i : ℤ) + 1) % (segments : ℤ)) * 2
    let top1 := bottom1 + 1
    let top2 := bottom2 + 1
    let topCenter : ℤ := ((vertices.length / 3 : ℕ) : ℤ) - 1
    [bottom1, top1, top2] ++ [bottom1, top2, bottom2] ++
    [0, bottom1, bottom2] ++ [topCenter, top2, top1])
  pure ⟨"shaft", vertices, normals, indices,
    [("radius", radius), ("length", length), ("segments", 32)], none⟩

/-- Resolved cylinder radius (lines 533-534):
`dimensions.get('radius', values[0] if values else 25)` with
`values = dimensions.get('values', [25, 50])`. -/
def cylinderRadius (dims : Dimensions) : ℚ :=
  let values := dims.values.getD [25, 50]
  dims.radius.getD (match values with | [] => 25 | v :: _ => v)

/-- Resolved cylinder height (lines 533-535):
`dimensions.get('height', values[1] if len(values) > 1 else 50)`. -/
def cylinderHeight (dims : Dimensions) : ℚ :=
  let values := dims.values.getD [25, 50]
  dims.height.getD ((values.get? 1).getD 50)

/-- One iteration of the cylinder vertex loop (lines 543-554): bottom
and top vertex triples of segment `i` with radial normals (dividing by
the radius). -/
def cylinderRow (ops : MathOps) (radius height : ℚ) (segments : ℕ) (i : ℕ) :
    Except String (List ℚ × List ℚ) := do
  let angle := 2 * ops.pi * (i : ℚ) / (segments : ℚ)
  let x := radius * ops.cos angle
  let y := radius * ops.sin angle
  let nx ← pdiv x radius
  let ny ← pdiv y radius
  pure (([x, y, -height/2, x, y, height/2] : List ℚ),
        ([nx, ny, 0, nx, ny, 0] : List ℚ))

/-- `_generate_cylinder` (lines 531-579): same vertex ring as the
shaft, side triangles only (the cap comment emits nothing). -/
def cylinderGen (ops : MathOps) (dims : Dimensions) : Except String Mesh := do
  let radius := cylinderRadius dims
  let height := cylinderHeight dims
  let segments : ℕ := 32
  let rows ← exMapM (cylinderRow ops radius height segments) (List.range (segments + 1))
  let vertices := (rows.map Prod.fst).flatten
  let normals := (rows.map Prod.snd).flatten
  let indices : List ℤ := (List.range segments).flatMap (fun i =>
    let bottom1 : ℤ := (i : ℤ) * 2
    let bottom2 : ℤ := (((i : ℤ) + 1) % (segments : ℤ)) * 2
    let top1 := bottom1 + 1
    let top2 := bottom2 + 1
    [bottom1, top1, top2] ++ [bottom1, top2, bottom2])
  pure ⟨"cylinder", vertices, normals, indices,
    [("radius", radius), ("height", height), ("segments", 32)], none⟩

/-- Resolved bearing outer radius (lines 251-252, 256). -/
def bearingOuterRadius (dims : Dimensions) : ℚ :=
  let values := dims.values.getD [30, 15]
  (dims.diameter.getD (match values with | [] => 60 | v :: _ => v * 2)) / 2

/-- Resolved bearing inner radius (lines 253, 257):
`(values[1]*2 if len(values) > 1 else 30) / 2`. -/
def bearingInnerRadius (dims : Dimensions) : ℚ :=
  let values := dims.values.getD [30, 15]
  (match values.get? 1 with | some v => v * 2 | none => 30) / 2

/-- One iteration of the bearing vertex loop (lines 265-282): four
vertex triples of sample `i` (outer top/bottom, inner top/bottom) with
radial normals dividing by the respective radius. -/
def bearingRow (ops : MathOps) (outerRadius innerRadius thickness : ℚ) (segments : ℕ)
    (i : ℕ) : Except String (List ℚ × List ℚ) := do
  let angle := 2 * ops.pi * (i : ℚ) / (segments : ℚ)
  let xOuter := outerRadius * ops.cos angle
  let yOuter := outerRadius * ops.sin angle
  let nxOuter ← pdiv xOuter outerRadius
  let nyOuter ← pdiv yOuter outerRadius
  let xInner := innerRadius * ops.cos angle
  let yInner := innerRadius * ops.sin angle
  let nxInner ← pdiv xInner innerRadius
  let nyInner ← pdiv yInner innerRadius
  pure (([xOuter, yOuter, thickness/2, xOuter, yOuter, -thickness/2,
          xInner, yInner, thickness/2, xInner, yInner, -thickness/2] : List ℚ),
        ([nxOuter, nyOuter, 0, nxOuter, nyOuter, 0,
          nxInner, nyInner, 0, nxInner, nyInner, 0] : List ℚ))

/-- `_generate_bearing` (lines 249-297): concentric double ring sampled
at 48 segments, four vertices per sample; `indices` is the placeholder
identity sequence `0..len(vertices)//3-1`. -/
def bearingGen (ops : MathOps) (dims : Dimensions) : Except String Mesh := do
  let values := dims.values.getD [30, 15]
  let outerRadius := bearingOuterRadius dims
  let innerRadius := bearingInnerRadius dims
  let thickness := (values.get? 2).getD 15
  let segments : ℕ := 48
  let rows ← exMapM (bearingRow ops outerRadius innerRadius thickness segments)
    (List.range (segments + 1))
  let vertices := (rows.map Prod.fst).flatten
  let normals := (rows.map Prod.snd).flatten
  let indices : List ℤ := (List.range (vertices.length / 3)).map Int.ofNat
  pure ⟨"bearing", vertices, normals, indices,
    [("outer_radius", outerRadius), ("inner_radius", innerRadius), ("thickness", thickness)],
    some "Complex bearing triangulation not implemented - simplified geometry"⟩

/-- Resolved sphere radius (line 583):
`dimensions.get('radius', dimensions.get('values', [25])[0] if dimensions.get('values') else 25)`. -/
def sphereRadius (dims : Dimensions) : ℚ :=
  dims.radius.getD (match dims.values with | some (v :: _) => v | _ => 25)

/-- One iteration of the sphere vertex loops (lines 592-604): the
vertex triple at ring `i`, segment `j`, together with its normal (the
position vector divided by its computed norm, raising if that norm is
zero). -/
def sphereCell (ops : MathOps) (radius : ℚ) (rings segments : ℕ) (i j : ℕ) :
    Except String (List ℚ × List ℚ) := do
  let phi := ops.pi * (i : ℚ) / (rings : ℚ)
  let theta := 2 * ops.pi * (j : ℚ) / (segments : ℚ)
  let x := radius * ops.sin phi * ops.cos theta
  let y := radius * ops.sin phi * ops.sin theta
  let z := radius * ops.cos phi
  let nrm := ops.sqrt (x*x + y*y + z*z)
  let nx ← pdiv x nrm
  let ny ← pdiv y nrm
  let nz ← pdiv z nrm
  pure (([x, y, z] : List ℚ), ([nx, ny, nz] : List ℚ))

/-- The sphere triangulation loop (lines 606-613): two triangles per
quad cell, connecting adjacent latitude bands. -/
def sphereIndices (rings segments : ℕ) : List ℤ :=
  (List.range rings).flatMap (fun i =>
    (List.range segments).flatMap (fun j =>
      let first : ℤ := (i : ℤ) * ((segments : ℤ) + 1) + (j : ℤ)
      let second : ℤ := first + (segments : ℤ) + 1
      [first, second, first + 1] ++ [second, second + 1, first + 1]))

/-- `_generate_sphere` (lines 581-625): latitude/longitude tessellation
with `rings = segments = 16`; two triangles per quad cell. -/
def sphereGen (ops : MathOps) (dims : Dimensions) : Except String Mesh := do
  let radius := sphereRadius dims
  let segments : ℕ := 16
  let rings : ℕ := 16
  let rows ← exMapM (fun (i : ℕ) =>
      exMapM (sphereCell ops radius rings segments i) (List.range (segments + 1)))
    (List.range (rings + 1))
  let cells := rows.flatten
  let vertices := (cells.map Prod.fst).flatten
  let normals := (cells.map Prod.snd).flatten
  let indices : List ℤ := sphereIndices rings segments
  pure ⟨"sphere", vertices, normals, indices,
    [("radius", radius), ("segments", 32), ("rings", 16)], none⟩

/-- Resolved gear diameter (lines 111-113):
`dimensions.get('diameter', values[0]*2 if values else 50)` with
`values = dimensions.get('values', [25, 10])`. -/
def gearDiameter (dims : Dimensions) : ℚ :=
  dims.diameter.getD (match dims.values.getD [25, 10] with | [] => 50 | v :: _ => v * 2)

/-- Resolved gear thickness (lines 111, 116):
`values[1] if len(values) > 1 else 10`. -/
def gearThickness (dims : Dimensions) : ℚ :=
  ((dims.values.getD [25, 10]).get? 1).getD 10

/-- One profile vertex of a gear tooth (lines 152-165): an
involute-curve point while the sample angle is below the half-pitch
boundary `angle_offset + pi/teeth`, a root-circle point at radius
`radius - dedendum` otherwise.  Both the vertex and its flat face
normal are emitted; the `pi/teeth` division raises on zero teeth. -/
def gearProfileVertex (ops : MathOps) (teeth : ℤ) (radius dedendum baseRadius angleStep
    z nz angleOffset : ℚ) (j : ℕ) : Except String (List ℚ × List ℚ) := do
  let angle := angleOffset + (j : ℚ) * angleStep
  let halfPitch ← pdiv ops.pi (teeth : ℚ)
  if angle < angleOffset + halfPitch then
    pure (([(involutePoint ops baseRadius angle).1,
            (involutePoint ops baseRadius angle).2, z] : List ℚ),
          ([0, 0, nz] : List ℚ))
  else
    let rootAngle := angleOffset + halfPitch + ((j : ℚ) - 2) * angleStep
    pure (([(radius - dedendum) * ops.cos rootAngle,
            (radius - dedendum) * ops.sin rootAngle, z] : List ℚ),
          ([0, 0, nz] : List ℚ))

/-- One tooth of the gear loop (lines 148-165): the tooth angular
offset `2 pi i / teeth` followed by the four profile vertices. -/
def gearTooth (ops : MathOps) (teeth : ℤ) (radius dedendum baseRadius angleStep z nz : ℚ)
    (i : ℕ) : Except String (List (List ℚ × List ℚ)) := do
  let angleOffset ← pdiv (2 * ops.pi * (i : ℚ)) (teeth : ℚ)
  exMapM (gearProfileVertex ops teeth radius dedendum baseRadius angleStep z nz angleOffset)
    (List.range 4)

/-- One face of the gear (lines 140-165): the centre vertex at
`z = ±thickness/2` followed by all tooth vertices of that face. -/
def gearFace (ops : MathOps) (teeth : ℤ) (radius dedendum baseRadius angleStep thickness : ℚ)
    (face : ℕ) : Except String (List (List ℚ × List ℚ)) := do
  let z := if face = 0 then -thickness/2 else thickness/2
  let nz : ℚ := if face = 0 then -1 else 1
  let toothRows ← exMapM (gearTooth ops teeth radius dedendum baseRadius angleStep z nz)
    (List.range teeth.toNat)
  pure ((([0, 0, z] : List ℚ), ([0, 0, nz] : List ℚ)) :: toothRows.flatten)

/-- `_generate_gear` (lines 108-190): for each of two faces emit one
centre vertex then, per tooth, four profile vertices (involute-curve
points for the tooth-face span, root-circle points otherwise), all with
flat face normals; triangulation fans from index 0 across consecutive
vertex quadruples.  Divisions by `teeth` raise when the tooth count is
zero.  (The Python code also derives an unused `addendum = module`.) -/
def gearGen (ops : MathOps) (dims : Dimensions) : Except String Mesh := do
  let teeth : ℤ := gearTeeth dims
  let diameter := gearDiameter dims
  let radius := diameter / 2
  let thickness := gearThickness dims
  let module ← pdiv diameter (teeth : ℚ)
  let dedendum := 1.25 * module
  let pressureAngle := mathRadians ops 20
  let baseRadius := radius * ops.cos pressureAngle
  let angleStep ← pdiv (2 * ops.pi) ((teeth : ℚ) * 4)
  let rowss ← exMapM (gearFace ops teeth radius dedendum baseRadius angleStep thickness)
    (List.range 2)
  let rows := rowss.flatten
  let vertices := (rows.map Prod.fst).flatten
  let normals := (rows.map Prod.snd).flatten
  let vertexCount := vertices.length / 3
  let indices : List ℤ := (rangeStep 1 vertexCount 4).flatMap (fun i =>
    if i + 3 < vertexCount then
      [0, (i : ℤ), (i : ℤ) + 1] ++ [0, (i : ℤ) + 1, (i : ℤ) + 2] ++ [0, (i : ℤ) + 2, (i : ℤ) + 3]
    else [])
  pure ⟨"gear", vertices, normals, indices,
    [("teeth", (teeth : ℚ)), ("radius", radius), ("thickness", thickness),
     ("module", module), ("base_radius", baseRadius)], none⟩

/-- The `feature_library` dict built in `__init__` (lines 14-27): the
twelve registered family tags and their generators. -/
def featureLibrary : List (String × (MathOps → Dimensions → Except String Mesh)) :=
  [("gear", gearGen), ("shaft", shaftGen), ("bearing", bearingGen),
   ("bracket", bracketGen), ("plate", plateGen), ("bolt", boltGen),
   ("cube", cubeGen), ("prism", prismGen), ("cylinder", cylinderGen),
   ("sphere", sphereGen), ("cone", coneGen), ("pyramid", pyramidGen)]

/-- The twelve registered family tags. -/
def familyNames : List String := featureLibrary.map Prod.fst

/-- `_generate_enhanced_geometry` (lines 98-106): dispatch on the family
tag.  An unregistered tag reaches
`self._generate_generic_solid(dimensions)`, but no class in the
repository defines `_generate_generic_solid`, so Python raises
`AttributeError` there. -/
def generateEnhancedGeometry (ops : MathOps) (parsed : Parsed) : Except String Mesh :=
  match featureLibrary.lookup parsed.type with
  | some gen => gen ops parsed.dimensions
  | none => .error "AttributeError: EnhancedCADEngine object has no attribute _generate_generic_solid"

/-- The static material table of `_calculate_properties` (lines
698-702): name to (density, yield strength). -/
def materialTable : List (String × (ℚ × ℚ)) :=
  [("Steel", (7.85, 250)), ("Aluminum", (2.7, 95)), ("Titanium", (4.5, 880))]

/-- Python `params[k]`: dict indexing, raising `KeyError` on a missing
key. -/
def dictIndex (p : List (String × ℚ)) (k : String) : Except String ℚ :=
  match p.lookup k with
  | some v => .ok v
  | none => .error "KeyError"

/-- Python `params.get(k, d)`: dict lookup with default. -/
def dictGetD (p : List (String × ℚ)) (k : String) (d : ℚ) : ℚ :=
  (p.lookup k).getD d

/-- `_calculate_bounding_box` (lines 729-743): zero box for an empty
vertex stream, otherwise `round(max - min, 2)` of each strided
coordinate stream (Python `max`/`min` raise on an empty stream, which
happens when the flat list has fewer than three entries). -/
def calcBoundingBox (geometry : Mesh) : Except String BBox :=
  if geometry.vertices = [] then .ok ⟨0, 0, 0⟩
  else do
    let xCoords := stride3 geometry.vertices
    let yCoords := stride3 (geometry.vertices.drop 1)
    let zCoords := stride3 (geometry.vertices.drop 2)
    let xmax ← pyMax xCoords
    let xmin ← pyMin xCoords
    let ymax ← pyMax yCoords
    let ymin ← pyMin yCoords
    let zmax ← pyMax zCoords
    let zmin ← pyMin zCoords
    pure ⟨round2 (xmax - xmin), round2 (ymax - ymin), round2 (zmax - zmin)⟩

/-- `_calculate_properties` (lines 695-727): material resolution with
Steel default, per-family closed-form volume (`π r² thickness` for gear,
`π r² length` for shaft, `width*height*thickness` with defaults 50/50/10
for every other family), mass = volume × density / 1000, and the
bounding box. -/
def calculateProperties (ops : MathOps) (geometry : Mesh) (parsed : Parsed) :
    Except String EngProps := do
  let material := parsed.material
  let props := (materialTable.lookup material).getD (7.85, 250)
  let volume ←
    if geometry.type = "gear" then do
      let r ← dictIndex geometry.parameters "radius"
      let t ← dictIndex geometry.parameters "thickness"
      pure (ops.pi * r^2 * t)
    else if geometry.type = "shaft" then do
      let r ← dictIndex geometry.parameters "radius"
      let l ← dictIndex geometry.parameters "length"
      pure (ops.pi * r^2 * l)
    else
      pure (dictGetD geometry.parameters "width" 50 *
            dictGetD geometry.parameters "height" 50 *
            dictGetD geometry.parameters "thickness" 10)
  let mass := volume * props.1 / 1000
  let bbox ← calcBoundingBox geometry
  pure ⟨round2 volume, round2 mass, material, props.1, props.2, bbox⟩

/-- A concrete executable instantiation of the abstract float
operations, used to run the embedding on concrete inputs: `pi` as a
rational approximation, constant unit-circle values for `cos`/`sin`
(so that `sin² + cos² = 1` holds), and the identity for `sqrt` (nonzero
on nonzero input). -/
def demoOps : MathOps := ⟨355/113, fun _ => 4/5, fun _ => 3/5, fun q => q⟩

/-- The empty dimension record (no key present). -/
def emptyDims : Dimensions := {}

lemma okBind {σ τ : Type} (x : σ) (g : σ → Except String τ) :
    (Except.ok x >>= g) = g x := rfl

lemma errBind {σ τ : Type} (msg : String) (g : σ → Except String τ) :
    ((Except.error msg : Except String σ) >>= g) = .error msg := rfl

lemma pure_eq_ok {α : Type} (a : α) : (pure a : Except String α) = .ok a := rfl

/-- Destructor for a successful bind. -/
lemma bindOk {α β : Type} {e : Except String α} {f : α → Except String β} {b : β}
    (h : (e >>= f) = .ok b) : ∃ a, e = .ok a ∧ f a = .ok b := by
  cases e with
  | error s => rw [errBind] at h; exact absurd h (by simp)
  | ok a => rw [okBind] at h; exact ⟨a, rfl, h⟩

lemma pdiv_ok (a : ℚ) {b : ℚ} (h : b ≠ 0) : pdiv a b = .ok (a / b) := by
  simp [pdiv, h]

/-- Destructor for a successful division. -/
lemma pdiv_ok_elim {a b c : ℚ} (h : pdiv a b = .ok c) : c = a / b ∧ b ≠ 0 := by
  by_cases hb : b = 0
  · rw [pdiv, if_pos hb] at h; exact absurd h (by simp)
  · rw [pdiv_ok a hb] at h; exact ⟨(Except.ok.inj h).symm, hb⟩

lemma exMapM_ok_length {α β : Type} {f : α → Except String β} :
    ∀ {l : List α} {ys : List β}, exMapM f l = .ok ys → ys.length = l.length := by
  intro l
  induction l with
  | nil =>
    intro ys h
    rw [exMapM] at h
    cases h
    rfl
  | cons a as ih =>
    intro ys h
    rw [exMapM] at h
    cases hfa : f a with
    | error e => rw [hfa] at h; cases h
    | ok b =>
      rw [hfa] at h
      cases hrest : exMapM f as with
      | error e => rw [hrest] at h; cases h
      | ok bs =>
        rw [hrest] at h
        cases h
        simp [ih hrest]

lemma exMapM_ok_mem {α β : Type} {f : α → Except String β} :
    ∀ {l : List α} {ys : List β}, exMapM f l = .ok ys →
      ∀ y ∈ ys, ∃ x ∈ l, f x = .ok y := by
  intro l
  induction l with
  | nil =>
    intro ys h
    rw [exMapM] at h
    cases h
    intro y hy
    cases hy
  | cons a as ih =>
    intro ys h
    rw [exMapM] at h
    cases hfa : f a with
    | error e => rw [hfa] at h; cases h
    | ok b =>
      rw [hfa] at h
      cases hrest : exMapM f as with
      | error e => rw [hrest] at h; cases h
      | ok bs =>
        rw [hrest] at h
        cases h
        intro y hy
        rcases List.mem_cons.mp hy with hyb | hyt
        · exact ⟨a, List.mem_cons_self a as, by rw [hfa, hyb]⟩
        · obtain ⟨x, hx, hfx⟩ := ih hrest y hyt
          exact ⟨x, List.mem_cons_of_mem a hx, hfx⟩

/-- A loop whose every iteration succeeds succeeds as a whole. -/
lemma exMapM_isOk {α β : Type} {f : α → Except String β} :
    ∀ {l : List α}, (∀ a ∈ l, ∃ b, f a = .ok b) → ∃ ys, exMapM f l = .ok ys := by
  intro l
  induction l with
  | nil => intro _; exact ⟨[], rfl⟩
  | cons a as ih =>
    intro h
    obtain ⟨b, hb⟩ := h a (List.mem_cons_self a as)
    obtain ⟨ys, hys⟩ := ih (fun x hx => h x (List.mem_cons_of_mem a hx))
    refine ⟨b :: ys, ?_⟩
    rw [exMapM, hb, hys]

lemma length_flatten_const {α : Type} {c : ℕ} :
    ∀ {l : List (List α)}, (∀ x ∈ l, x.length = c) → l.flatten.length = l.length * c := by
  intro l
  induction l with
  | nil => intro _; simp
  | cons x xs ih =>
    intro h
    rw [List.flatten_cons, List.length_append, h x (List.mem_cons_self x xs),
      ih (fun y hy => h y (List.mem_cons_of_mem x hy))]
    simp [Nat.succ_mul]
    omega

lemma length_flatMap_const {α β : Type} {f : α → List β} {c : ℕ} :
    ∀ {l : List α}, (∀ a ∈ l, (f a).length = c) → (l.flatMap f).length = l.length * c := by
  intro l
  induction l with
  | nil => intro _; simp
  | cons a as ih =>
    intro h
    rw [List.flatMap_cons, List.length_append, h a (List.mem_cons_self a as),
      ih (fun y hy => h y (List.mem_cons_of_mem a hy))]
    simp [Nat.succ_mul]
    omega

lemma listRepeat_length (l : List ℚ) (n : ℕ) : (listRepeat l n).length = n * l.length := by
  rw [listRepeat]
  rw [length_flatten_const (fun x hx => by rw [List.eq_of_mem_replicate hx])]
  simp

lemma pyMax_of_ne_nil {l : List ℚ} (h : l ≠ []) : pyMax l = .ok (listMax l) := by
  cases l with
  | nil => exact absurd rfl h
  | cons a t => rfl

lemma pyMin_of_ne_nil {l : List ℚ} (h : l ≠ []) : pyMin l = .ok (listMin l) := by
  cases l with
  | nil => exact absurd rfl h
  | cons a t => rfl

lemma stride3_ne_nil {l : List ℚ} (h : l ≠ []) : stride3 l ≠ [] := by
  match l with
  | [] => exact absurd rfl h
  | [a] => simp [stride3]
  | [a, b] => simp [stride3]
  | a :: b :: c :: rest => simp [stride3]

lemma shaftRow_shape {ops : MathOps} {radius length : ℚ} {segments i : ℕ}
    {row : List ℚ × List ℚ} (h : shaftRow ops radius length segments i = .ok row) :
    row.1.length = 6 ∧ row.2.length = 6 := by
  simp only [shaftRow] at h
  obtain ⟨nx, hnx, h⟩ := bindOk h
  obtain ⟨ny, hny, h⟩ := bindOk h
  cases h
  exact ⟨rfl, rfl⟩

lemma shaftRow_isOk {ops : MathOps} {radius : ℚ} (length : ℚ) (segments i : ℕ)
    (h : radius ≠ 0) : ∃ row, shaftRow ops radius length segments i = .ok row := by
  simp only [shaftRow]
  simp only [pdiv_ok _ h, okBind]
  exact ⟨_, rfl⟩

lemma shaftGen_facts {ops : MathOps} {dims : Dimensions} {m : Mesh}
    (h : shaftGen ops dims = .ok m) :
    m.vertices.length = 198 ∧ m.normals.length = 198 ∧
    ∀ ix ∈ m.indices, 0 ≤ ix ∧ ix < ((m.vertices.length / 3 : ℕ) : ℤ) := by
  simp only [shaftGen] at h
  obtain ⟨rows, hrows, h⟩ := bindOk h
  cases h
  have hlen : rows.length = 33 := by simpa using exMapM_ok_length hrows
  have hfst : ∀ x ∈ rows.map Prod.fst, x.length = 6 := by
    intro x hx
    obtain ⟨row, hrow, rfl⟩ := List.mem_map.mp hx
    obtain ⟨i, _, hfi⟩ := exMapM_ok_mem hrows row hrow
    exact (shaftRow_shape hfi).1
  have hsnd : ∀ x ∈ rows.map Prod.snd, x.length = 6 := by
    intro x hx
    obtain ⟨row, hrow, rfl⟩ := List.mem_map.mp hx
    obtain ⟨i, _, hfi⟩ := exMapM_ok_mem hrows row hrow
    exact (shaftRow_shape hfi).2
  have hv : ((rows.map Prod.fst).flatten).length = 198 := by
    rw [length_flatten_const hfst, List.length_map, hlen]
  have hn : ((rows.map Prod.snd).flatten).length = 198 := by
    rw [length_flatten_const hsnd, List.length_map, hlen]
  refine ⟨hv, hn, ?_⟩
  intro ix hix
  show 0 ≤ ix ∧ ix < ((((rows.map Prod.fst).flatten).length / 3 : ℕ) : ℤ)
  rw [hv]
  obtain ⟨i, hi, hmem⟩ := List.mem_flatMap.mp hix
  have hi32 : i < 32 := List.mem_range.mp hi
  rw [hv] at hmem
  fin_cases hmem <;>
    simp only [List.mem_cons, List.mem_singleton] at * <;> omega

lemma cylinderRow_shape {ops : MathOps} {radius height : ℚ} {segments i : ℕ}
    {row : List ℚ × List ℚ} (h : cylinderRow ops radius height segments i = .ok row) :
    row.1.length = 6 ∧ row.2.length = 6 := by
  simp only [cylinderRow] at h
  obtain ⟨nx, hnx, h⟩ := bindOk h
  obtain ⟨ny, hny, h⟩ := bindOk h
  cases h
  exact ⟨rfl, rfl⟩

lemma cylinderRow_isOk {ops : MathOps} {radius : ℚ} (height : ℚ) (segments i : ℕ)
    (h : radius ≠ 0) : ∃ row, cylinderRow ops radius height segments i = .ok row := by
  simp only [cylinderRow]
  simp only [pdiv_ok _ h, okBind]
  exact ⟨_, rfl⟩

lemma cylinderGen_facts {ops : MathOps} {dims : Dimensions} {m : Mesh}
    (h : cylinderGen ops dims = .ok m) :
    m.type = "cylinder" ∧ m.vertices.length = 198 ∧ m.normals.length = 198 ∧
    m.parameters = [("radius", cylinderRadius dims), ("height", cylinderHeight dims),
      ("segments", 32)] ∧
    ∀ ix ∈ m.indices, 0 ≤ ix ∧ ix < ((m.vertices.length / 3 : ℕ) : ℤ) := by
  simp only [cylinderGen] at h
  obtain ⟨rows, hrows, h⟩ := bindOk h
  cases h
  have hlen : rows.length = 33 := by simpa using exMapM_ok_length hrows
  have hfst : ∀ x ∈ rows.map Prod.fst, x.length = 6 := by
    intro x hx
    obtain ⟨row, hrow, rfl⟩ := List.mem_map.mp hx
    obtain ⟨i, _, hfi⟩ := exMapM_ok_mem hrows row hrow
    exact (cylinderRow_shape hfi).1
  have hsnd : ∀ x ∈ rows.map Prod.snd, x.length = 6 := by
    intro x hx
    obtain ⟨row, hrow, rfl⟩ := List.mem_map.mp hx
    obtain ⟨i, _, hfi⟩ := exMapM_ok_mem hrows row hrow
    exact (cylinderRow_shape hfi).2
  have hv : ((rows.map Prod.fst).flatten).length = 198 := by
    rw [length_flatten_const hfst, List.length_map, hlen]
  have hn : ((rows.map Prod.snd).flatten).length = 198 := by
    rw [length_flatten_const hsnd, List.length_map, hlen]
  refine ⟨rfl, hv, hn, rfl, ?_⟩
  intro ix hix
  show 0 ≤ ix ∧ ix < ((((rows.map Prod.fst).flatten).length / 3 : ℕ) : ℤ)
  rw [hv]
  obtain ⟨i, hi, hmem⟩ := List.mem_flatMap.mp hix
  have hi32 : i < 32 := List.mem_range.mp hi
  fin_cases hmem <;> omega

lemma bearingRow_shape {ops : MathOps} {outerRadius innerRadius thickness : ℚ}
    {segments i : ℕ} {row : List ℚ × List ℚ}
    (h : bearingRow ops outerRadius innerRadius thickness segments i = .ok row) :
    row.1.length = 12 ∧ row.2.length = 12 := by
  simp only [bearingRow] at h
  obtain ⟨a1, h1, h⟩ := bindOk h
  obtain ⟨a2, h2, h⟩ := bindOk h
  obtain ⟨a3, h3, h⟩ := bindOk h
  obtain ⟨a4, h4, h⟩ := bindOk h
  cases h
  exact ⟨rfl, rfl⟩

lemma bearingRow_isOk {ops : MathOps} {outerRadius innerRadius : ℚ}
    (thickness : ℚ) (segments i : ℕ)
    (ho : outerRadius ≠ 0) (hi : innerRadius ≠ 0) :
    ∃ row, bearingRow ops outerRadius innerRadius thickness segments i = .ok row := by
  simp only [bearingRow]
  simp only [pdiv_ok _ ho, pdiv_ok _ hi, okBind]
  exact ⟨_, rfl⟩

lemma bearingGen_facts {ops : MathOps} {dims : Dimensions} {m : Mesh}
    (h : bearingGen ops dims = .ok m) :
    m.vertices.length = 588 ∧ m.normals.length = 588 ∧
    ∀ ix ∈ m.indices, 0 ≤ ix ∧ ix < ((m.vertices.length / 3 : ℕ) : ℤ) := by
  simp only [bearingGen] at h
  obtain ⟨rows, hrows, h⟩ := bindOk h
  cases h
  have hlen : rows.length = 49 := by simpa using exMapM_ok_length hrows
  have hfst : ∀ x ∈ rows.map Prod.fst, x.length = 12 := by
    intro x hx
    obtain ⟨row, hrow, rfl⟩ := List.mem_map.mp hx
    obtain ⟨i, _, hfi⟩ := exMapM_ok_mem hrows row hrow
    exact (bearingRow_shape hfi).1
  have hsnd : ∀ x ∈ rows.map Prod.snd, x.length = 12 := by
    intro x hx
    obtain ⟨row, hrow, rfl⟩ := List.mem_map.mp hx
    obtain ⟨i, _, hfi⟩ := exMapM_ok_mem hrows row hrow
    exact (bearingRow_shape hfi).2
  have hv : ((rows.map Prod.fst).flatten).length = 588 := by
    rw [length_flatten_const hfst, List.length_map, hlen]
  have hn : ((rows.map Prod.snd).flatten).length = 588 := by
    rw [length_flatten_const hsnd, List.length_map, hlen]
  refine ⟨hv, hn, ?_⟩
  intro ix hix
  show 0 ≤ ix ∧
    ix < ((((rows.map Prod.fst).flatten).length / 3 : ℕ) : ℤ)
  obtain ⟨k, hk, rfl⟩ := List.mem_map.mp hix
  have := List.mem_range.mp hk
  rw [hv] at this ⊢
  simp only [Int.ofNat_eq_coe]
  omega

lemma sphereCell_shape {ops : MathOps} {radius : ℚ} {rings segments i j : ℕ}
    {row : List ℚ × List ℚ} (h : sphereCell ops radius rings segments i j = .ok row) :
    row.1.length = 3 ∧ row.2.length = 3 := by
  simp only [sphereCell] at h
  obtain ⟨nx, h1, h⟩ := bindOk h
  obtain ⟨ny, h2, h⟩ := bindOk h
  obtain ⟨nz, h3, h⟩ := bindOk h
  cases h
  exact ⟨rfl, rfl⟩

lemma sphereIndices_length (rings segments : ℕ) :
    (sphereIndices rings segments).length = rings * (segments * 6) := by
  simp only [sphereIndices]
  refine Eq.trans (length_flatMap_const (c := segments * 6) ?_) (by rw [List.length_range])
  intro a _
  refine Eq.trans (length_flatMap_const (c := 6) ?_) (by rw [List.length_range])
  intro b _
  rfl

lemma sphereIndices_bound {ix : ℤ} (hix : ix ∈ sphereIndices 16 16) : 0 ≤ ix ∧ ix < 289 := by
  simp only [sphereIndices] at hix
  obtain ⟨i, hi, hmem⟩ := List.mem_flatMap.mp hix
  obtain ⟨j, hj, hmem2⟩ := List.mem_flatMap.mp hmem
  have hi16 : i < 16 := List.mem_range.mp hi
  have hj16 : j < 16 := List.mem_range.mp hj
  fin_cases hmem2 <;> omega

lemma sphereGen_facts {ops : MathOps} {dims : Dimensions} {m : Mesh}
    (h : sphereGen ops dims = .ok m) :
    m.vertices.length = 867 ∧ m.normals.length = 867 ∧ m.indices.length = 1536 ∧
    ∀ ix ∈ m.indices, 0 ≤ ix ∧ ix < ((m.vertices.length / 3 : ℕ) : ℤ) := by
  simp only [sphereGen] at h
  obtain ⟨rows, hrows, h⟩ := bindOk h
  cases h
  have hlen : rows.length = 17 := by simpa using exMapM_ok_length hrows
  have hinner : ∀ x ∈ rows, x.length = 17 := by
    intro x hx
    obtain ⟨i, _, hi⟩ := exMapM_ok_mem hrows x hx
    simpa using exMapM_ok_length hi
  have hcells : rows.flatten.length = 289 := by
    rw [length_flatten_const hinner, hlen]
  have hcellshape : ∀ cell ∈ rows.flatten, cell.1.length = 3 ∧ cell.2.length = 3 := by
    intro cell hcell
    obtain ⟨inner, hinner2, hci⟩ := List.mem_flatten.mp hcell
    obtain ⟨i, _, hi⟩ := exMapM_ok_mem hrows inner hinner2
    obtain ⟨j, _, hj⟩ := exMapM_ok_mem hi cell hci
    exact sphereCell_shape hj
  have hv : ((rows.flatten.map Prod.fst).flatten).length = 867 := by
    rw [length_flatten_const (c := 3) (fun x hx => ?_), List.length_map, hcells]
    obtain ⟨cell, hcell, rfl⟩ := List.mem_map.mp hx
    exact (hcellshape cell hcell).1
  have hn : ((rows.flatten.map Prod.snd).flatten).length = 867 := by
    rw [length_flatten_const (c := 3) (fun x hx => ?_), List.length_map, hcells]
    obtain ⟨cell, hcell, rfl⟩ := List.mem_map.mp hx
    exact (hcellshape cell hcell).2
  refine ⟨hv, hn, ?_, ?_⟩
  · show (sphereIndices 16 16).length = 1536
    rw [sphereIndices_length]
  intro ix hix
  have := sphereIndices_bound hix
  show 0 ≤ ix ∧ ix < ((((rows.flatten.map Prod.fst).flatten).length / 3 : ℕ) : ℤ)
  rw [hv]
  omega

lemma gearProfileVertex_shape {ops : MathOps} {teeth : ℤ}
    {radius dedendum baseRadius angleStep z nz angleOffset : ℚ} {j : ℕ}
    {row : List ℚ × List ℚ}
    (h : gearProfileVertex ops teeth radius dedendum baseRadius angleStep z nz angleOffset j
      = .ok row) :
    row.1.length = 3 ∧ row.2.length = 3 := by
  simp only [gearProfileVertex] at h
  obtain ⟨hp, hhp, h⟩ := bindOk h
  split at h <;> (cases h; exact ⟨rfl, rfl⟩)

lemma gearTooth_shape {ops : MathOps} {teeth : ℤ}
    {radius dedendum baseRadius angleStep z nz : ℚ} {i : ℕ}
    {rows : List (List ℚ × List ℚ)}
    (h : gearTooth ops teeth radius dedendum baseRadius angleStep z nz i = .ok rows) :
    rows.length = 4 ∧ ∀ row ∈ rows, row.1.length = 3 ∧ row.2.length = 3 := by
  simp only [gearTooth] at h
  obtain ⟨ao, hao, h⟩ := bindOk h
  refine ⟨by simpa using exMapM_ok_length h, ?_⟩
  intro row hrow
  obtain ⟨j, _, hj⟩ := exMapM_ok_mem h row hrow
  exact gearProfileVertex_shape hj

lemma gearFace_shape {ops : MathOps} {teeth : ℤ}
    {radius dedendum baseRadius angleStep thickness : ℚ} {face : ℕ}
    {r : List (List ℚ × List ℚ)}
    (h : gearFace ops teeth radius dedendum baseRadius angleStep thickness face = .ok r) :
    r.length = 1 + 4 * teeth.toNat ∧ ∀ row ∈ r, row.1.length = 3 ∧ row.2.length = 3 := by
  simp only [gearFace] at h
  obtain ⟨toothRows, htr, h⟩ := bindOk h
  cases h
  constructor
  · have h1 : toothRows.length = teeth.toNat := by simpa using exMapM_ok_length htr
    have h2 : ∀ x ∈ toothRows, x.length = 4 := by
      intro x hx
      obtain ⟨i, _, hi⟩ := exMapM_ok_mem htr x hx
      exact (gearTooth_shape hi).1
    show (_ :: toothRows.flatten).length = _
    rw [List.length_cons, length_flatten_const h2, h1]
    omega
  · intro row hrow
    rcases List.mem_cons.mp hrow with hc | hf
    · subst hc; exact ⟨rfl, rfl⟩
    · obtain ⟨inner, hinner, hri⟩ := List.mem_flatten.mp hf
      obtain ⟨i, _, hi⟩ := exMapM_ok_mem htr inner hinner
      exact (gearTooth_shape hi).2 row hri

lemma gearGen_facts {ops : MathOps} {dims : Dimensions} {m : Mesh}
    (h : gearGen ops dims = .ok m) :
    m.type = "gear" ∧
    m.vertices.length = 6 + 24 * (gearTeeth dims).toNat ∧
    m.normals.length = m.vertices.length ∧
    m.parameters.lookup "module" = some (gearDiameter dims / (gearTeeth dims : ℚ)) ∧
    m.parameters.lookup "base_radius"
      = some (gearDiameter dims / 2 * ops.cos (mathRadians ops 20)) ∧
    ∀ ix ∈ m.indices, 0 ≤ ix ∧ ix < ((m.vertices.length / 3 : ℕ) : ℤ) := by
  simp only [gearGen] at h
  obtain ⟨module, hmod, h⟩ := bindOk h
  obtain ⟨angleStep, hstep, h⟩ := bindOk h
  obtain ⟨rowss, hrowss, h⟩ := bindOk h
  cases h
  have hfaces : rowss.length = 2 := by simpa using exMapM_ok_length hrowss
  have hfaceshape : ∀ r ∈ rowss, r.length = 1 + 4 * (gearTeeth dims).toNat := by
    intro r hr
    obtain ⟨face, _, hface⟩ := exMapM_ok_mem hrowss r hr
    exact (gearFace_shape hface).1
  have hrowshape : ∀ row ∈ rowss.flatten, row.1.length = 3 ∧ row.2.length = 3 := by
    intro row hrow
    obtain ⟨r, hr, hrr⟩ := List.mem_flatten.mp hrow
    obtain ⟨face, _, hface⟩ := exMapM_ok_mem hrowss r hr
    exact (gearFace_shape hface).2 row hrr
  have hrows : rowss.flatten.length = 2 * (1 + 4 * (gearTeeth dims).toNat) := by
    rw [length_flatten_const hfaceshape, hfaces]
  have hv : ((rowss.flatten.map Prod.fst).flatten).length
      = 6 + 24 * (gearTeeth dims).toNat := by
    rw [length_flatten_const (c := 3) (fun x hx => ?_), List.length_map, hrows]
    · ring
    · obtain ⟨row, hrow, rfl⟩ := List.mem_map.mp hx
      exact (hrowshape row hrow).1
  have hn : ((rowss.flatten.map Prod.snd).flatten).length
      = 6 + 24 * (gearTeeth dims).toNat := by
    rw [length_flatten_const (c := 3) (fun x hx => ?_), List.length_map, hrows]
    · ring
    · obtain ⟨row, hrow, rfl⟩ := List.mem_map.mp hx
      exact (hrowshape row hrow).2
  refine ⟨rfl, hv, by rw [hn, hv], ?_, ?_, ?_⟩
  · show List.lookup _ _ = _
    have : module = gearDiameter dims / (gearTeeth dims : ℚ) := (pdiv_ok_elim hmod).1
    subst this
    rfl
  · rfl
  · intro ix hix
    show 0 ≤ ix ∧ ix < ((((rowss.flatten.map Prod.fst).flatten).length / 3 : ℕ) : ℤ)
    obtain ⟨i, hi, hmem⟩ := List.mem_flatMap.mp hix
    by_cases hc : i + 3 < ((rowss.flatten.map Prod.fst).flatten).length / 3
    · rw [if_pos hc] at hmem
      fin_cases hmem <;> omega
    · rw [if_neg hc] at hmem
      cases hmem

lemma boltHeadVertices_length (ops : MathOps) (headRadius headHeight : ℚ) :
    (boltHeadVertices ops headRadius headHeight).length = 36 := by
  simp only [boltHeadVertices]
  refine Eq.trans (length_flatMap_const (c := 6) ?_) (by simp)
  intro a _
  rfl

lemma boltShaftVertices_length (ops : MathOps) (radius headHeight length : ℚ)
    (segments : ℕ) :
    (boltShaftVertices ops radius headHeight length segments).length = (segments + 1) * 6 := by
  simp only [boltShaftVertices]
  refine Eq.trans (length_flatMap_const (c := 6) ?_) (by simp)
  intro a _
  rfl

lemma coneBaseRing_length (ops : MathOps) (baseRadius height : ℚ) (segments : ℕ) :
    (coneBaseRing ops baseRadius height segments).length = (segments + 1) * 3 := by
  simp only [coneBaseRing]
  refine Eq.trans (length_flatMap_const (c := 3) ?_) (by simp)
  intro a _
  rfl

lemma coneBaseNormals_length (segments : ℕ) :
    (coneBaseNormals segments).length = (segments + 1) * 3 := by
  simp only [coneBaseNormals]
  refine Eq.trans (length_flatMap_const (c := 3) ?_) (by simp)
  intro a _
  rfl

lemma cubeGen_facts {ops : MathOps} {dims : Dimensions} {m : Mesh}
    (h : cubeGen ops dims = .ok m) :
    m.vertices.length = 24 ∧ m.normals.length = 24 ∧
    ∀ ix ∈ m.indices, 0 ≤ ix ∧ ix < ((m.vertices.length / 3 : ℕ) : ℤ) := by
  simp only [cubeGen] at h
  cases h
  refine ⟨by simp, by simp [listRepeat_length], ?_⟩
  intro ix hix
  have hix2 : ix ∈ ([0, 1, 2, 0, 2, 3,
     4, 6, 5, 4, 7, 6,
     1, 5, 6, 1, 6, 2,
     0, 3, 7, 0, 7, 4,
     3, 2, 6, 3, 6, 7,
     0, 4, 5, 0, 5, 1] : List ℤ) := hix
  fin_cases hix2 <;> simp

lemma plateGen_facts {ops : MathOps} {dims : Dimensions} {m : Mesh}
    (h : plateGen ops dims = .ok m) :
    m.vertices.length = 24 ∧ m.normals.length = 24 ∧
    ∀ ix ∈ m.indices, 0 ≤ ix ∧ ix < ((m.vertices.length / 3 : ℕ) : ℤ) := by
  simp only [plateGen] at h
  cases h
  refine ⟨by simp, by simp [listRepeat_length], ?_⟩
  intro ix hix
  have hix2 : ix ∈ ([0, 1, 2, 0, 2, 3,
     4, 6, 5, 4, 7, 6,
     0, 4, 5, 0, 5, 1,
     1, 5, 6, 1, 6, 2,
     2, 6, 7, 2, 7, 3,
     3, 7, 4, 3, 4, 0] : List ℤ) := hix
  fin_cases hix2 <;> simp

lemma bracketGen_facts {ops : MathOps} {dims : Dimensions} {m : Mesh}
    (h : bracketGen ops dims = .ok m) :
    m.vertices.length = 30 ∧ m.normals.length = 30 ∧
    ∀ ix ∈ m.indices, 0 ≤ ix ∧ ix < ((m.vertices.length / 3 : ℕ) : ℤ) := by
  simp only [bracketGen] at h
  cases h
  refine ⟨by simp, by simp [listRepeat_length], ?_⟩
  intro ix hix
  have hix2 : ix ∈ ([0, 1, 2, 0, 2, 3,
     4, 6, 5, 4, 7, 6,
     0, 4, 5, 0, 5, 1,
     1, 5, 6, 1, 6, 2,
     2, 6, 7, 2, 7, 3,
     3, 7, 4, 3, 4, 0] : List ℤ) := hix
  fin_cases hix2 <;> simp

lemma prismGen_facts {ops : MathOps} {dims : Dimensions} {m : Mesh}
    (h : prismGen ops dims = .ok m) :
    m.vertices.length = 18 ∧ m.normals.length = 18 ∧
    ∀ ix ∈ m.indices, 0 ≤ ix ∧ ix < ((m.vertices.length / 3 : ℕ) : ℤ) := by
  simp only [prismGen] at h
  cases h
  refine ⟨by simp, by simp [listRepeat_length], ?_⟩
  intro ix hix
  have hix2 : ix ∈
    ([0, 1, 2, 3, 5, 4, 0, 2, 5, 0, 5, 3, 1, 4, 5, 1, 5, 2, 0, 3, 4, 0, 4, 1] : List ℤ) := hix
  fin_cases hix2 <;> simp

lemma pyramidGen_facts {ops : MathOps} {dims : Dimensions} {m : Mesh}
    (h : pyramidGen ops dims = .ok m) :
    m.vertices.length = 15 ∧ m.normals.length = 15 ∧
    ∀ ix ∈ m.indices, 0 ≤ ix ∧ ix < ((m.vertices.length / 3 : ℕ) : ℤ) := by
  simp only [pyramidGen] at h
  cases h
  refine ⟨by simp, by simp [listRepeat_length], ?_⟩
  intro ix hix
  have hix2 : ix ∈ ([0, 1, 2, 0, 2, 3, 0, 3, 4, 0, 4, 1, 1, 3, 2, 1, 4, 3] : List ℤ) := hix
  fin_cases hix2 <;> simp

lemma coneGen_facts {ops : MathOps} {dims : Dimensions} {m : Mesh}
    (h : coneGen ops dims = .ok m) :
    m.vertices.length = 102 ∧ m.normals.length = 102 ∧
    ∀ ix ∈ m.indices, 0 ≤ ix ∧ ix < ((m.vertices.length / 3 : ℕ) : ℤ) := by
  simp only [coneGen] at h
  cases h
  refine ⟨by simp [coneBaseRing_length], by simp [coneBaseNormals_length], ?_⟩
  intro ix hix
  have hix2 : ix ∈ (List.range' 1 32).flatMap
      (fun i => [0, (i : ℤ), if i < 32 then (i : ℤ) + 1 else 1]) := hix
  simp only [List.length_append, coneBaseRing_length, List.length_cons, List.length_nil]
  obtain ⟨i, hi, hmem⟩ := List.mem_flatMap.mp hix2
  have hir : 1 ≤ i ∧ i < 33 := List.mem_range'_1.mp hi
  by_cases hc : i < 32
  · rw [if_pos hc] at hmem
    fin_cases hmem <;> omega
  · rw [if_neg hc] at hmem
    fin_cases hmem <;> omega

lemma boltGen_facts {ops : MathOps} {dims : Dimensions} {m : Mesh}
    (h : boltGen ops dims = .ok m) :
    m.vertices.length = 138 ∧ m.normals.length = 138 ∧
    ∀ ix ∈ m.indices, 0 ≤ ix ∧ ix < ((m.vertices.length / 3 : ℕ) : ℤ) := by
  simp only [boltGen] at h
  cases h
  refine ⟨by simp [boltHeadVertices_length, boltShaftVertices_length],
    by simp [listRepeat_length, boltHeadVertices_length, boltShaftVertices_length], ?_⟩
  intro ix hix
  obtain ⟨k, hk, rfl⟩ := List.mem_map.mp hix
  have hk2 := List.mem_range.mp hk
  rw [List.length_append, boltHeadVertices_length, boltShaftVertices_length] at hk2
  simp only [List.length_append, boltHeadVertices_length, boltShaftVertices_length,
    Int.ofNat_eq_coe]
  omega

lemma ite_pure_isOk {α : Type} (c : Prop) [Decidable c] (a b : α) :
    ∃ r, (if c then (pure a : Except String α) else pure b) = .ok r := by
  by_cases hc : c
  · exact ⟨a, by rw [if_pos hc]; exact pure_eq_ok a⟩
  · exact ⟨b, by rw [if_neg hc]; exact pure_eq_ok b⟩

lemma shaftGen_isOk (ops : MathOps) (dims : Dimensions) (h : shaftRadius dims ≠ 0) :
    ∃ m, shaftGen ops dims = .ok m := by
  simp only [shaftGen]
  obtain ⟨rows, hrows⟩ := exMapM_isOk (fun i _ => shaftRow_isOk (shaftLength dims) 32 i h)
  rw [hrows]
  exact ⟨_, rfl⟩

lemma cylinderGen_isOk (ops : MathOps) (dims : Dimensions) (h : cylinderRadius dims ≠ 0) :
    ∃ m, cylinderGen ops dims = .ok m := by
  simp only [cylinderGen]
  obtain ⟨rows, hrows⟩ := exMapM_isOk (fun i _ => cylinderRow_isOk (cylinderHeight dims) 32 i h)
  rw [hrows]
  exact ⟨_, rfl⟩

lemma bearingGen_isOk (ops : MathOps) (dims : Dimensions)
    (ho : bearingOuterRadius dims ≠ 0) (hi : bearingInnerRadius dims ≠ 0) :
    ∃ m, bearingGen ops dims = .ok m := by
  simp only [bearingGen]
  obtain ⟨rows, hrows⟩ := exMapM_isOk
    (fun i _ => bearingRow_isOk (((dims.values.getD [30, 15]).get? 2).getD 15) 48 i ho hi)
  rw [hrows]
  exact ⟨_, rfl⟩

lemma sphereCell_isOk (ops : MathOps) {radius : ℚ} (rings segments i j : ℕ)
    (hr : radius ≠ 0)
    (hPyth : ∀ a, ops.sin a ^ 2 + ops.cos a ^ 2 = 1)
    (hSqrt : ∀ q, q ≠ 0 → ops.sqrt q ≠ 0) :
    ∃ row, sphereCell ops radius rings segments i j = .ok row := by
  simp only [sphereCell]
  have harg : radius * ops.sin (ops.pi * (i : ℚ) / (rings : ℚ))
        * ops.cos (2 * ops.pi * (j : ℚ) / (segments : ℚ))
        * (radius * ops.sin (ops.pi * (i : ℚ) / (rings : ℚ))
          * ops.cos (2 * ops.pi * (j : ℚ) / (segments : ℚ)))
      + radius * ops.sin (ops.pi * (i : ℚ) / (rings : ℚ))
        * ops.sin (2 * ops.pi * (j : ℚ) / (segments : ℚ))
        * (radius * ops.sin (ops.pi * (i : ℚ) / (rings : ℚ))
          * ops.sin (2 * ops.pi * (j : ℚ) / (segments : ℚ)))
      + radius * ops.cos (ops.pi * (i : ℚ) / (rings : ℚ))
        * (radius * ops.cos (ops.pi * (i : ℚ) / (rings : ℚ)))
      = radius ^ 2 := by
    have h1 := hPyth (2 * ops.pi * (j : ℚ) / (segments : ℚ))
    have h2 := hPyth (ops.pi * (i : ℚ) / (rings : ℚ))
    linear_combination (radius ^ 2 * ops.sin (ops.pi * (i : ℚ) / (rings : ℚ)) ^ 2) * h1
      + radius ^ 2 * h2
  have hnrm : ops.sqrt (radius * ops.sin (ops.pi * (i : ℚ) / (rings : ℚ))
        * ops.cos (2 * ops.pi * (j : ℚ) / (segments : ℚ))
        * (radius * ops.sin (ops.pi * (i : ℚ) / (rings : ℚ))
          * ops.cos (2 * ops.pi * (j : ℚ) / (segments : ℚ)))
      + radius * ops.sin (ops.pi * (i : ℚ) / (rings : ℚ))
        * ops.sin (2 * ops.pi * (j : ℚ) / (segments : ℚ))
        * (radius * ops.sin (ops.pi * (i : ℚ) / (rings : ℚ))
          * ops.sin (2 * ops.pi * (j : ℚ) / (segments : ℚ)))
      + radius * ops.cos (ops.pi * (i : ℚ) / (rings : ℚ))
        * (radius * ops.cos (ops.pi * (i : ℚ) / (rings : ℚ)))) ≠ 0 := by
    rw [harg]
    exact hSqrt _ (pow_ne_zero 2 hr)
  simp only [pdiv_ok _ hnrm, okBind]
  exact ⟨_, rfl⟩

lemma sphereGen_isOk (ops : MathOps) (dims : Dimensions)
    (hr : sphereRadius dims ≠ 0)
    (hPyth : ∀ a, ops.sin a ^ 2 + ops.cos a ^ 2 = 1)
    (hSqrt : ∀ q, q ≠ 0 → ops.sqrt q ≠ 0) :
    ∃ m, sphereGen ops dims = .ok m := by
  simp only [sphereGen]
  obtain ⟨rows, hrows⟩ := exMapM_isOk (fun i _ =>
    exMapM_isOk (fun j _ => sphereCell_isOk ops 16 16 i j hr hPyth hSqrt))
  rw [hrows]
  exact ⟨_, rfl⟩

lemma gearProfileVertex_isOk (ops : MathOps) {teeth : ℤ}
    (radius dedendum baseRadius angleStep z nz angleOffset : ℚ) (j : ℕ)
    (ht : (teeth : ℚ) ≠ 0) :
    ∃ row, gearProfileVertex ops teeth radius dedendum baseRadius angleStep z nz angleOffset j
      = .ok row := by
  simp only [gearProfileVertex]
  simp only [pdiv_ok _ ht, okBind]
  exact ite_pure_isOk _ _ _

lemma gearTooth_isOk (ops : MathOps) {teeth : ℤ}
    (radius dedendum baseRadius angleStep z nz : ℚ) (i : ℕ) (ht : (teeth : ℚ) ≠ 0) :
    ∃ rows, gearTooth ops teeth radius dedendum baseRadius angleStep z nz i = .ok rows := by
  simp only [gearTooth]
  simp only [pdiv_ok _ ht, okBind]
  exact exMapM_isOk (fun j _ =>
    gearProfileVertex_isOk ops radius dedendum baseRadius angleStep z nz _ j ht)

lemma gearFace_isOk (ops : MathOps) {teeth : ℤ}
    (radius dedendum baseRadius angleStep thickness : ℚ) (face : ℕ)
    (ht : (teeth : ℚ) ≠ 0) :
    ∃ r, gearFace ops teeth radius dedendum baseRadius angleStep thickness face = .ok r := by
  simp only [gearFace]
  obtain ⟨toothRows, htr⟩ := exMapM_isOk (fun i _ =>
    gearTooth_isOk ops radius dedendum baseRadius angleStep _ _ i ht)
  rw [htr]
  exact ⟨_, rfl⟩

lemma gearGen_isOk (ops : MathOps) (dims : Dimensions) (ht : ((gearTeeth dims : ℤ) : ℚ) ≠ 0) :
    ∃ m, gearGen ops dims = .ok m := by
  simp only [gearGen]
  have ht4 : ((gearTeeth dims : ℤ) : ℚ) * 4 ≠ 0 := mul_ne_zero ht (by norm_num)
  simp only [pdiv_ok _ ht, pdiv_ok _ ht4, okBind]
  obtain ⟨rowss, hrowss⟩ := exMapM_isOk (fun face _ => gearFace_isOk ops _ _ _ _ _ face ht)
  rw [hrowss]
  exact ⟨_, rfl⟩

lemma calcBoundingBox_eq (m : Mesh) (h1 : m.vertices ≠ []) (h2 : m.vertices.length % 3 = 0) :
    calcBoundingBox m = .ok
      ⟨round2 (listMax (stride3 m.vertices) - listMin (stride3 m.vertices)),
       round2 (listMax (stride3 (m.vertices.drop 1)) - listMin (stride3 (m.vertices.drop 1))),
       round2 (listMax (stride3 (m.vertices.drop 2)) - listMin (stride3 (m.vertices.drop 2)))⟩ := by
  have h0 : m.vertices.length ≠ 0 := fun hh => h1 (List.length_eq_zero.mp hh)
  have hd1 : m.vertices.drop 1 ≠ [] := by
    rw [← List.length_pos, List.length_drop]
    omega
  have hd2 : m.vertices.drop 2 ≠ [] := by
    rw [← List.length_pos, List.length_drop]
    omega
  have hx := stride3_ne_nil h1
  have hy := stride3_ne_nil hd1
  have hz := stride3_ne_nil hd2
  simp only [calcBoundingBox, if_neg h1]
  rw [pyMax_of_ne_nil hx, pyMin_of_ne_nil hx, pyMax_of_ne_nil hy, pyMin_of_ne_nil hy,
    pyMax_of_ne_nil hz, pyMin_of_ne_nil hz]
  rfl

/-- For a mesh whose family is neither gear nor shaft, the property
calculator takes the generic box-volume branch. -/
lemma calculateProperties_box (ops : MathOps) (parsed : Parsed) {m : Mesh} {bb : BBox}
    (hg : ¬(m.type = "gear")) (hs : ¬(m.type = "shaft"))
    (hbb : calcBoundingBox m = .ok bb) :
    ∃ p, calculateProperties ops m parsed = .ok p ∧
      p.volume = round2 (dictGetD m.parameters "width" 50 * dictGetD m.parameters "height" 50 *
        dictGetD m.parameters "thickness" 10) ∧
      p.boundingBox = bb := by
  simp only [calculateProperties]
  rw [if_neg hg, if_neg hs]
  rw [hbb]
  exact ⟨_, rfl, rfl, rfl⟩

/-- Rounding an integer-valued rational to two decimals returns it
unchanged. -/
lemma round2_intCast (n : ℤ) : round2 ((n : ℚ)) = (n : ℚ) := by
  have hcast : ((n : ℚ) * 100) = ((n * 100 : ℤ) : ℚ) := by push_cast; ring
  simp only [round2, roundHalfEven, hcast, Int.floor_intCast]
  rw [if_pos (by norm_num)]
  push_cast
  ring

/-- The parsed spec of an unknown family tag. -/
def widgetParsed : Parsed := ⟨"widget", emptyDims, "Steel", ""⟩

/-- The parsed spec `cylinder` with no dimensions (defaults radius 25,
height 50). -/
def cylinderParsed : Parsed := ⟨"cylinder", emptyDims, "Steel", ""⟩

/-- The spec `gear(diameter=50, teeth=20, thickness=10)` (thickness 10
is the resolved default of `values[1]`). -/
def gearSpecDims : Dimensions := { teeth := some 20, diameter := some 50 }

/-- The spec `sphere(radius=25)`. -/
def sphereSpecDims : Dimensions := { radius := some 25 }

/-- The spec `cube(size=50)`. -/
def cubeSpecDims : Dimensions := { size := some 50 }

/-- The parsed spec `cube(size=50)` in steel. -/
def cubeParsed : Parsed := ⟨"cube", cubeSpecDims, "Steel", ""⟩

/-- A dimension record with an explicit zero tooth count. -/
def zeroTeethDims : Dimensions := { teeth := some 0 }

/-- Shared helper for claim C2: the cylinder volume is the generic box
formula `round(50 * height * 10, 2)`. -/
lemma cylinder_box_volume_helper (ops : MathOps) (dims : Dimensions) (parsed : Parsed)
    (h : cylinderRadius dims ≠ 0) :
    ∃ m p, cylinderGen ops dims = .ok m ∧ calculateProperties ops m parsed = .ok p ∧
      p.volume = round2 (50 * cylinderHeight dims * 10) := by
  obtain ⟨m, hm⟩ := cylinderGen_isOk ops dims h
  obtain ⟨hty, hv, hn, hparams, _⟩ := cylinderGen_facts hm
  have hne : m.vertices ≠ [] := List.length_pos.mp (by omega)
  have hmod : m.vertices.length % 3 = 0 := by omega
  have hbb := calcBoundingBox_eq m hne hmod
  obtain ⟨p, hp, hvol, _⟩ := calculateProperties_box ops parsed
    (by rw [hty]; decide) (by rw [hty]; decide) hbb
  have hw : dictGetD m.parameters "width" 50 = 50 := by rw [hparams]; rfl
  have hh : dictGetD m.parameters "height" 50 = cylinderHeight dims := by rw [hparams]; rfl
  have hth : dictGetD m.parameters "thickness" 10 = 10 := by rw [hparams]; rfl
  refine ⟨m, p, hm, hp, ?_⟩
  rw [hvol, hw, hh, hth]

/-- C1: for a ComponentSpec whose family tag is not one of the 12
registered families (e.g. "widget"), the claim says dispatch routes to
a generic-solid fallback returning a default 50×50×10 box and never
raises.  In the code, the registry miss calls
`self._generate_generic_solid(dimensions)`, but that method is defined
nowhere in the repository, so Python raises `AttributeError` instead of
returning a mesh: the spec describes the clear intent, the code has a
genuine bug.  This theorem evaluates the dispatch at the failing
input. -/
theorem unknown_family_dispatch_raises :
    generateEnhancedGeometry demoOps widgetParsed =
      .error "AttributeError: EnhancedCADEngine object has no attribute _generate_generic_solid"
    := rfl

/-- C2 counterexample: for the cylinder mesh built from default
dimensions (recorded radius 25, height 50), the property calculator
returns volume 25000 — the box formula `50 * height * 10` — while the
claimed closed form `π·radius²·height` gives a different value (under
the model π, as under any value near the real π, it is ≈ 98174, not
25000). -/
theorem cylinder_volume_closed_form_cex :
    (Except.map EngProps.volume ((cylinderGen demoOps emptyDims).bind
      (fun m => calculateProperties demoOps m cylinderParsed))) = .ok 25000 ∧
    demoOps.pi * 25 ^ 2 * 50 ≠ 25000 := by
  constructor
  · obtain ⟨m, p, hm, hp, hvol⟩ :=
      cylinder_box_volume_helper demoOps emptyDims cylinderParsed (by decide)
    rw [hm]
    show Except.map EngProps.volume (calculateProperties demoOps m cylinderParsed) = .ok 25000
    rw [hp]
    show Except.ok p.volume = .ok 25000
    rw [hvol]
    have h1 : (50 : ℚ) * cylinderHeight emptyDims * 10 = ((25000 : ℤ) : ℚ) := by
      norm_num [cylinderHeight, emptyDims]
    rw [h1, round2_intCast]
    norm_num
  · norm_num [demoOps]

/-- C2 (amended): for every cylinder mesh the Property Calculator does
not use the closed form; it falls into the generic box branch and
returns `round(params.get('width',50) * params.get('height',50) *
params.get('thickness',10), 2) = round(50 * height * 10, 2)`, because
the cylinder parameter record carries only radius/height/segments.
Only the gear and shaft families use the `π·r²·(thickness|length)`
closed form. -/
theorem cylinder_volume_box_formula (ops : MathOps) (dims : Dimensions) (parsed : Parsed)
    (h : cylinderRadius dims ≠ 0) :
    ∃ m p, cylinderGen ops dims = .ok m ∧ calculateProperties ops m parsed = .ok p ∧
      p.volume = round2 (50 * cylinderHeight dims * 10) :=
  cylinder_box_volume_helper ops dims parsed h

/-- C2 witness: the amended theorem applied at the default cylinder
spec under the model operations. -/
theorem cylinder_volume_box_formula_witness :
    (Except.map EngProps.volume ((cylinderGen demoOps emptyDims).bind
      (fun m => calculateProperties demoOps m cylinderParsed))) = .ok 25000 := by
  obtain ⟨m, p, hm, hp, hvol⟩ :=
    cylinder_volume_box_formula demoOps emptyDims cylinderParsed (by decide)
  rw [hm]
  show Except.map EngProps.volume (calculateProperties demoOps m cylinderParsed) = .ok 25000
  rw [hp]
  show Except.ok p.volume = .ok 25000
  rw [hvol]
  have h1 : (50 : ℚ) * cylinderHeight emptyDims * 10 = ((25000 : ℤ) : ℚ) := by
    norm_num [cylinderHeight, emptyDims]
  rw [h1, round2_intCast]
  norm_num

/-- A two-vertex mesh whose x extent is 0.001: rounding to two decimals
makes the reported bounding-box length 0 rather than the exact 0.001. -/
def bboxCexMesh : Mesh :=
  ⟨"demo", [0, 0, 0, 1/1000, 0, 0], [0, 0, 1, 0, 0, 1], [], [], none⟩

/-- C3 counterexample: the bounding box is not the exact max-minus-min
difference: the code rounds each extent to two decimals
(`round(..., 2)`), so a mesh with x extent 0.001 reports length 0. -/
theorem bounding_box_exact_cex :
    calcBoundingBox bboxCexMesh = .ok ⟨0, 0, 0⟩ ∧
    listMax (stride3 bboxCexMesh.vertices) - listMin (stride3 bboxCexMesh.vertices) = 1/1000 ∧
    (0 : ℚ) ≠ 1/1000 := by
  refine ⟨?_, ?_, by norm_num⟩
  · rw [calcBoundingBox_eq bboxCexMesh (by decide) (by decide)]
    norm_num [bboxCexMesh, stride3, listMax, listMin, round2, roundHalfEven]
  · norm_num [bboxCexMesh, stride3, listMax, listMin]

/-- C3 (amended): for every Mesh whose flat vertex list is nonempty
with length a multiple of 3, each bounding-box field equals the max
minus min of the corresponding strided coordinate stream rounded to
two decimals — `round(max - min, 2)` exactly, with no further
tolerance. -/
theorem bounding_box_round2_exact (m : Mesh) (h1 : m.vertices ≠ [])
    (h2 : m.vertices.length % 3 = 0) :
    calcBoundingBox m = .ok
      ⟨round2 (listMax (stride3 m.vertices) - listMin (stride3 m.vertices)),
       round2 (listMax (stride3 (m.vertices.drop 1)) - listMin (stride3 (m.vertices.drop 1))),
       round2 (listMax (stride3 (m.vertices.drop 2)) - listMin (stride3 (m.vertices.drop 2)))⟩ :=
  calcBoundingBox_eq m h1 h2

/-- C3 witness: the amended theorem evaluated at the 0.001-extent
mesh. -/
theorem bounding_box_round2_exact_witness :
    calcBoundingBox bboxCexMesh = .ok
      ⟨round2 (listMax (stride3 bboxCexMesh.vertices) - listMin (stride3 bboxCexMesh.vertices)),
       round2 (listMax (stride3 (bboxCexMesh.vertices.drop 1))
         - listMin (stride3 (bboxCexMesh.vertices.drop 1))),
       round2 (listMax (stride3 (bboxCexMesh.vertices.drop 2))
         - listMin (stride3 (bboxCexMesh.vertices.drop 2)))⟩ :=
  bounding_box_round2_exact bboxCexMesh (by decide) (by decide)

/-- C4: for the spec `cube(size=50)` the generated mesh has 24 vertex
entries and 36 index entries, and the Property Calculator reports
volume 25000 — the default 50×50×10 box formula, because the cube
parameter record carries only `size` — not the geometric 125000. -/
theorem cube50_mesh_and_volume :
    (generateEnhancedGeometry demoOps cubeParsed).toOption.map
      (List.length ∘ Mesh.vertices) = some 24 ∧
    (generateEnhancedGeometry demoOps cubeParsed).toOption.map
      (List.length ∘ Mesh.indices) = some 36 ∧
    Except.map EngProps.volume ((generateEnhancedGeometry demoOps cubeParsed).bind
      (fun m => calculateProperties demoOps m cubeParsed)) = .ok 25000 := by
  refine ⟨rfl, rfl, ?_⟩
  obtain ⟨m, hm⟩ : ∃ m, cubeGen demoOps cubeSpecDims = .ok m := ⟨_, rfl⟩
  obtain ⟨hv, hn, _⟩ := cubeGen_facts hm
  have hne : m.vertices ≠ [] := List.length_pos.mp (by omega)
  have hmod : m.vertices.length % 3 = 0 := by omega
  have hbb := calcBoundingBox_eq m hne hmod
  have hty : m.type = "cube" := by rw [← Except.ok.inj hm]
  obtain ⟨p, hp, hvol, _⟩ := calculateProperties_box demoOps cubeParsed
    (by rw [hty]; decide) (by rw [hty]; decide) hbb
  have hw : dictGetD m.parameters "width" 50 = 50 := by rw [← Except.ok.inj hm]; rfl
  have hh : dictGetD m.parameters "height" 50 = 50 := by rw [← Except.ok.inj hm]; rfl
  have hth : dictGetD m.parameters "thickness" 10 = 10 := by rw [← Except.ok.inj hm]; rfl
  show Except.map EngProps.volume ((cubeGen demoOps cubeSpecDims).bind
    (fun m => calculateProperties demoOps m cubeParsed)) = .ok 25000
  rw [hm]
  show Except.map EngProps.volume (calculateProperties demoOps m cubeParsed) = .ok 25000
  rw [hp]
  show Except.ok p.volume = .ok 25000
  rw [hvol, hw, hh, hth]
  have h1 : (50 : ℚ) * 50 * 10 = ((25000 : ℤ) : ℚ) := by norm_num
  rw [h1, round2_intCast]
  norm_num

/-- The division-safety side conditions under which each registered
generator completes: gear needs a nonzero tooth count, the radial
families need nonzero radii, and the sphere needs a nonzero radius
together with genuinely Pythagorean trigonometric operations and a
square root that is nonzero away from zero.  Families with no
input-dependent denominator need nothing. -/
def divisionSafe (fam : String) (dims : Dimensions) (ops : MathOps) : Prop :=
  (fam = "gear" → ((gearTeeth dims : ℤ) : ℚ) ≠ 0) ∧
  (fam = "shaft" → shaftRadius dims ≠ 0) ∧
  (fam = "bearing" → bearingOuterRadius dims ≠ 0 ∧ bearingInnerRadius dims ≠ 0) ∧
  (fam = "cylinder" → cylinderRadius dims ≠ 0) ∧
  (fam = "sphere" → sphereRadius dims ≠ 0 ∧ (∀ a, ops.sin a ^ 2 + ops.cos a ^ 2 = 1) ∧
    (∀ q, q ≠ 0 → ops.sqrt q ≠ 0))

/-- C5 counterexample: a gear request with an explicit zero tooth count
raises `ZeroDivisionError` (at `module = diameter / teeth`), so the
registered generators do not return a Mesh for every dimensions
record. -/
theorem gear_zero_teeth_raises :
    gearGen demoOps zeroTeethDims = .error "ZeroDivisionError: float division by zero" := rfl

/-- C5 (amended): for every registered family and every dimensions
record — in particular a `values` list of any length, every indexed
access of which is guarded by a literal default — the generator
returns a Mesh provided the resolved parameters create no zero
denominator (`divisionSafe`); with a zero parameter such as
`teeth = 0` the generator instead raises `ZeroDivisionError`. -/
theorem generators_return_mesh_when_division_safe :
    ∀ (fam : String) (gen : MathOps → Dimensions → Except String Mesh)
      (dims : Dimensions) (ops : MathOps),
      (fam, gen) ∈ featureLibrary → divisionSafe fam dims ops →
      ∃ m, gen ops dims = .ok m := by
  intro fam gen dims ops hmem hsafe
  obtain ⟨h1, h2, h3, h4, h5⟩ := hsafe
  simp only [featureLibrary, List.mem_cons, List.not_mem_nil, or_false,
    Prod.mk.injEq] at hmem
  rcases hmem with hc | hc | hc | hc | hc | hc | hc | hc | hc | hc | hc | hc <;>
    obtain ⟨rfl, rfl⟩ := hc
  · exact gearGen_isOk ops dims (h1 rfl)
  · exact shaftGen_isOk ops dims (h2 rfl)
  · exact bearingGen_isOk ops dims (h3 rfl).1 (h3 rfl).2
  · exact ⟨_, rfl⟩
  · exact ⟨_, rfl⟩
  · exact ⟨_, rfl⟩
  · exact ⟨_, rfl⟩
  · exact ⟨_, rfl⟩
  · exact cylinderGen_isOk ops dims (h4 rfl)
  · obtain ⟨hr, hp, hs⟩ := h5 rfl
    exact sphereGen_isOk ops dims hr hp hs
  · exact ⟨_, rfl⟩
  · exact ⟨_, rfl⟩

/-- C5 witness: the amended theorem applied to the gear generator with
no dimensions given (teeth defaults to 20). -/
theorem generators_return_mesh_witness : (gearGen demoOps emptyDims).isOk = true := by
  obtain ⟨m, hm⟩ := generators_return_mesh_when_division_safe "gear" gearGen emptyDims demoOps
    (by simp [featureLibrary])
    ⟨fun _ => by decide, fun hh => absurd hh (by decide), fun hh => absurd hh (by decide),
     fun hh => absurd hh (by decide), fun hh => absurd hh (by decide)⟩
  rw [hm]
  rfl

/-- C6: every registered generator, whenever it returns a Mesh, returns
flat vertex and normal streams with `len(vertices) % 3 == 0` and
`len(normals) == len(vertices)`. -/
theorem mesh_shape_invariant :
    ∀ (fam : String) (gen : MathOps → Dimensions → Except String Mesh)
      (dims : Dimensions) (ops : MathOps) (m : Mesh),
      (fam, gen) ∈ featureLibrary → gen ops dims = .ok m →
      m.vertices.length % 3 = 0 ∧ m.normals.length = m.vertices.length := by
  intro fam gen dims ops m hmem hok
  simp only [featureLibrary, List.mem_cons, List.not_mem_nil, or_false,
    Prod.mk.injEq] at hmem
  rcases hmem with hc | hc | hc | hc | hc | hc | hc | hc | hc | hc | hc | hc <;>
    obtain ⟨rfl, rfl⟩ := hc
  · obtain ⟨_, hv, hn, _⟩ := gearGen_facts hok
    exact ⟨by omega, hn⟩
  · obtain ⟨hv, hn, _⟩ := shaftGen_facts hok
    exact ⟨by omega, by omega⟩
  · obtain ⟨hv, hn, _⟩ := bearingGen_facts hok
    exact ⟨by omega, by omega⟩
  · obtain ⟨hv, hn, _⟩ := bracketGen_facts hok
    exact ⟨by omega, by omega⟩
  · obtain ⟨hv, hn, _⟩ := plateGen_facts hok
    exact ⟨by omega, by omega⟩
  · obtain ⟨hv, hn, _⟩ := boltGen_facts hok
    exact ⟨by omega, by omega⟩
  · obtain ⟨hv, hn, _⟩ := cubeGen_facts hok
    exact ⟨by omega, by omega⟩
  · obtain ⟨hv, hn, _⟩ := prismGen_facts hok
    exact ⟨by omega, by omega⟩
  · obtain ⟨hv, hn, _⟩ := cylinderGen_facts hok
    exact ⟨by omega, by omega⟩
  · obtain ⟨hv, hn, _⟩ := sphereGen_facts hok
    exact ⟨by omega, by omega⟩
  · obtain ⟨hv, hn, _⟩ := coneGen_facts hok
    exact ⟨by omega, by omega⟩
  · obtain ⟨hv, hn, _⟩ := pyramidGen_facts hok
    exact ⟨by omega, by omega⟩

/-- The pyramid mesh produced from an empty dimension record
(base width 30, base depth 30, height 40), with its arithmetic left in
the form the generator builds. -/
def pyramidDemoMesh : Mesh :=
  ⟨"pyramid",
   [0, 0, 40/2,
    -(30/2), -(30/2), -40/2,
    30/2, -(30/2), -40/2,
    30/2, 30/2, -40/2,
    -(30/2), 30/2, -40/2],
   listRepeat [0, 0, 1] (15 / 3),
   [0, 1, 2, 0, 2, 3, 0, 3, 4, 0, 4, 1, 1, 3, 2, 1, 4, 3],
   [("base_width", 30), ("base_depth", 30), ("height", 40)], none⟩


/-- C6 witness: the shape invariant applied to the default pyramid
mesh. -/
theorem mesh_shape_invariant_witness :
    pyramidDemoMesh.vertices.length % 3 = 0 ∧
    pyramidDemoMesh.normals.length = pyramidDemoMesh.vertices.length :=
  mesh_shape_invariant "pyramid" pyramidGen emptyDims demoOps pyramidDemoMesh
    (by simp [featureLibrary]) rfl

/-- C7: for the spec `gear(diameter=50, teeth=20, thickness=10)` the
generated mesh has 162 vertices — a flat vertex array of length
`2 * (3 + 20*4*3) = 486` — and its parameter record carries
`module = 50/20 = 2.5` and `base_radius = 25 * cos(radians(20))`. -/
theorem gear_spec_module_and_size (ops : MathOps) :
    ∃ m, generateEnhancedGeometry ops ⟨"gear", gearSpecDims, "Steel", ""⟩ = .ok m ∧
      m.vertices.length = 486 ∧
      m.parameters.lookup "module" = some (5/2) ∧
      m.parameters.lookup "base_radius" = some (25 * ops.cos (mathRadians ops 20)) := by
  have ht : ((gearTeeth gearSpecDims : ℤ) : ℚ) ≠ 0 := by decide
  obtain ⟨m, hm⟩ := gearGen_isOk ops gearSpecDims ht
  obtain ⟨hty, hv, hn, hmod, hbase, _⟩ := gearGen_facts hm
  refine ⟨m, hm, ?_, ?_, ?_⟩
  · rw [hv]
    decide
  · rw [hmod]
    norm_num [gearDiameter, gearSpecDims, gearTeeth]
  · rw [hbase]
    norm_num [gearDiameter, gearSpecDims]

/-- C8: for the spec `sphere(radius=25)` with the default
`rings = segments = 16`, every successfully generated mesh has a flat
vertex array of length `(16+1)*(16+1)*3 = 867` and an index array of
length `16*16*6 = 1536`. -/
theorem sphere_spec_lengths :
    ∀ (ops : MathOps) (m : Mesh),
      sphereGen ops sphereSpecDims = .ok m →
      m.vertices.length = 867 ∧ m.indices.length = 1536 := by
  intro ops m hok
  obtain ⟨hv, _, hi, _⟩ := sphereGen_facts hok
  exact ⟨hv, hi⟩

/-- C8 witness: under the model operations the sphere generation
succeeds and the theorem yields the two lengths. -/
theorem sphere_spec_lengths_witness :
    (sphereGen demoOps sphereSpecDims).toOption.map (List.length ∘ Mesh.vertices)
      = some 867 ∧
    (sphereGen demoOps sphereSpecDims).toOption.map (List.length ∘ Mesh.indices)
      = some 1536 := by
  obtain ⟨m, hm⟩ := sphereGen_isOk demoOps sphereSpecDims (by decide)
    (fun a => by norm_num [demoOps]) (fun q hq => hq)
  have h := sphere_spec_lengths demoOps m hm
  rw [hm]
  exact ⟨by simp [Except.toOption, Function.comp, h.1],
         by simp [Except.toOption, Function.comp, h.2]⟩

/-- C9: generation and property calculation are deterministic — the
embedding of `_generate_enhanced_geometry` and
`_calculate_properties` is a pure function of the parsed spec (and of
the abstract float operations), with no randomness or clock
dependence, so two runs on the same input are identical. -/
theorem generation_and_properties_deterministic :
    ∀ (ops : MathOps) (parsed : Parsed) (m : Mesh),
      generateEnhancedGeometry ops parsed = generateEnhancedGeometry ops parsed ∧
      calculateProperties ops m parsed = calculateProperties ops m parsed :=
  fun _ _ _ => ⟨rfl, rfl⟩

/-- C10: every registered generator, whenever it returns a Mesh,
returns indices that are non-negative and strictly below
`len(vertices)/3` — including the bearing and bolt placeholder
identity lists, whose entries `0..len(vertices)//3-1` stay in range. -/
theorem index_bounds_invariant :
    ∀ (fam : String) (gen : MathOps → Dimensions → Except String Mesh)
      (dims : Dimensions) (ops : MathOps) (m : Mesh),
      (fam, gen) ∈ featureLibrary → gen ops dims = .ok m →
      ∀ ix ∈ m.indices, 0 ≤ ix ∧ ix < ((m.vertices.length / 3 : ℕ) : ℤ) := by
  intro fam gen dims ops m hmem hok
  simp only [featureLibrary, List.mem_cons, List.not_mem_nil, or_false,
    Prod.mk.injEq] at hmem
  rcases hmem with hc | hc | hc | hc | hc | hc | hc | hc | hc | hc | hc | hc <;>
    obtain ⟨rfl, rfl⟩ := hc
  · exact (gearGen_facts hok).2.2.2.2.2
  · exact (shaftGen_facts hok).2.2
  · exact (bearingGen_facts hok).2.2
  · exact (bracketGen_facts hok).2.2
  · exact (plateGen_facts hok).2.2
  · exact (boltGen_facts hok).2.2
  · exact (cubeGen_facts hok).2.2
  · exact (prismGen_facts hok).2.2
  · exact (cylinderGen_facts hok).2.2.2.2
  · exact (sphereGen_facts hok).2.2.2
  · exact (coneGen_facts hok).2.2
  · exact (pyramidGen_facts hok).2.2

/-- The plate mesh produced from an empty dimension record
(width 100, height 100, thickness 5), with its arithmetic left in the
form the generator builds. -/
def plateDemoMesh : Mesh :=
  ⟨"plate",
   [-100/2, -100/2, 5/2,
    100/2, -100/2, 5/2,
    100/2, 100/2, 5/2,
    -100/2, 100/2, 5/2,
    -100/2, -100/2, -5/2,
    100/2, -100/2, -5/2,
    100/2, 100/2, -5/2,
    -100/2, 100/2, -5/2],
   listRepeat [0, 0, 1] (24 / 3),
   [0, 1, 2, 0, 2, 3,
    4, 6, 5, 4, 7, 6,
    0, 4, 5, 0, 5, 1,
    1, 5, 6, 1, 6, 2,
    2, 6, 7, 2, 7, 3,
    3, 7, 4, 3, 4, 0],
   [("width", 100), ("height", 100), ("thickness", 5)], none⟩

/-- C10 witness: the index-bounds theorem applied to index 6 of the
default plate mesh. -/
theorem index_bounds_invariant_witness :
    0 ≤ (6 : ℤ) ∧ (6 : ℤ) < ((plateDemoMesh.vertices.length / 3 : ℕ) : ℤ) :=
  index_bounds_invariant "plate" plateGen emptyDims demoOps plateDemoMesh
    (by simp [featureLibrary]) rfl 6 (by decide)
